import Mathlib

/-!
# usb_cam: a shallow embedding of the V4L2 capture engine

This development embeds the class `usb_cam::UsbCam` of `src/usb_cam.cpp` and
proves or refutes statements of its specification.

Conventions of the embedding.

* The object's data members are the fields of the structure `UsbCam`; a member
  function is a function from the state to a result and a new state.
* The operating system is an oracle `Kernel`: one field per system call or
  library call made by the class, giving the answer of that call during one
  invocation of a public member function.  Within one such invocation a call
  is issued at most once per argument (loops issue it once per index), so a
  fresh `Kernel` value per invocation describes every deterministic device.
* Every call that reaches the operating system is appended to the ghost field
  `UsbCam.trace`, in program order.
* A result `none` stands for abnormal termination: a failed `assert` (the
  assertions are taken to be compiled in), or a dereference of a null or
  out-of-range pointer.
* `unsigned int` arithmetic is arithmetic on `Nat` reduced modulo `2^32`.
-/

namespace usb_cam

/-! ## Machine integers and C library arithmetic -/

/-- Reduction of a natural number to the range of `unsigned int` / `uint32_t`. -/
def u32 (n : Nat) : Nat := n % 2 ^ 32

/-- Conversion of a 32-bit unsigned value to `int` (two's complement). -/
def toInt32 (n : Nat) : Int :=
  if n % 2 ^ 32 < 2 ^ 31 then ((n % 2 ^ 32 : Nat) : Int) else ((n % 2 ^ 32 : Nat) : Int) - 2 ^ 32

/-- The value of the C expression `static_cast<int64_t>(round(n / d.0))` for an
integer `n` and a positive integer constant `d`: the quotient rounded to the
nearest integer, halves away from zero.  For `d = 1000000` and
`0 ≤ n < 1000000` the double division is exact enough for this to be the
machine result: the quotient is `0.5` exactly at `n = 500000`, strictly below
it for smaller `n` and above it for larger `n`. -/
def round_div (n : Int) (d : Nat) : Int :=
  if 0 ≤ n then (2 * n + d) / (2 * d) else -((2 * (-n) + d) / (2 * d))

/-- The value of the C expression `static_cast<int64_t>(n / d.0)`: the quotient
truncated toward zero. -/
def trunc_div (n : Int) (d : Nat) : Int :=
  if 0 ≤ n then n / d else -((-n) / d)

/-! ## Enumerations of `usb_cam/utils.hpp` and constants of `linux/videodev2.h` -/

/-- The I/O strategies, `usb_cam::utils::io_method`. -/
inductive io_method where
  | IO_METHOD_READ
  | IO_METHOD_MMAP
  | IO_METHOD_USERPTR
  | IO_METHOD_UNKNOWN
deriving DecidableEq, Repr

/-- The pixel formats a caller may request, `usb_cam::utils::pixel_format`. -/
inductive pixel_format where
  | PIXEL_FORMAT_YUYV
  | PIXEL_FORMAT_UYVY
  | PIXEL_FORMAT_MJPEG
  | PIXEL_FORMAT_YUVMONO10
  | PIXEL_FORMAT_RGB24
  | PIXEL_FORMAT_GREY
  | PIXEL_FORMAT_YU12
  | PIXEL_FORMAT_H264
  | PIXEL_FORMAT_UNKNOWN
deriving DecidableEq, Repr

/-- The decoder colour formats, `usb_cam::utils::color_format`. -/
inductive color_format where
  | COLOR_FORMAT_YUV420P
  | COLOR_FORMAT_YUV422P
  | COLOR_FORMAT_UNKNOWN
deriving DecidableEq, Repr

/-- The fourcc code `'Y' 'U' 'Y' 'V'`. -/
def V4L2_PIX_FMT_YUYV : Nat := 0x56595559
/-- The fourcc code `'U' 'Y' 'V' 'Y'`. -/
def V4L2_PIX_FMT_UYVY : Nat := 0x59565955
/-- The fourcc code `'M' 'J' 'P' 'G'`. -/
def V4L2_PIX_FMT_MJPEG : Nat := 0x47504A4D
/-- The fourcc code `'H' '2' '6' '4'`. -/
def V4L2_PIX_FMT_H264 : Nat := 0x34363248
/-- The fourcc code `'R' 'G' 'B' '3'`. -/
def V4L2_PIX_FMT_RGB24 : Nat := 0x33424752
/-- The fourcc code `'G' 'R' 'E' 'Y'`. -/
def V4L2_PIX_FMT_GREY : Nat := 0x59455247
/-- The fourcc code `'Y' 'U' '1' '2'`. -/
def V4L2_PIX_FMT_YUV420 : Nat := 0x32315559

/-- Capability bit: the device captures video. -/
def V4L2_CAP_VIDEO_CAPTURE : Nat := 0x00000001
/-- Capability bit: the device supports `read()`. -/
def V4L2_CAP_READWRITE : Nat := 0x01000000
/-- Capability bit: the device supports streaming I/O. -/
def V4L2_CAP_STREAMING : Nat := 0x04000000

/-- The value of `MAP_FAILED`, `(void *) -1` on a 64-bit machine. -/
def MAP_FAILED : Nat := 2 ^ 64 - 1

/-- The size of a pointer, `sizeof(char *)`, on a 64-bit machine. -/
def sizeof_char_ptr : Nat := 8

/-! ## Data structures -/

/-- A `struct timeval`: seconds and microseconds. -/
structure timeval where
  tv_sec : Int
  tv_usec : Int
deriving DecidableEq, Repr

/-- A `struct timespec`: seconds and nanoseconds. -/
structure timespec where
  tv_sec : Int
  tv_nsec : Int
deriving DecidableEq, Repr

/-- One raw capture buffer, `usb_cam::utils::buffer`: address and length. -/
structure buffer where
  start : Nat
  length : Nat
deriving DecidableEq, Repr

/-- The fields of `struct v4l2_buffer` that the class reads after a dequeue. -/
structure v4l2_buffer where
  index : Nat
  bytesused : Nat
  timestamp : timeval
  userptr : Nat
  length : Nat
deriving DecidableEq, Repr

/-- The fields of `struct v4l2_pix_format` that the class writes or reads. -/
structure v4l2_pix_format where
  width : Nat
  height : Nat
  pixelformat : Nat
  bytesperline : Nat
  sizeimage : Nat
deriving DecidableEq, Repr

/-- The output frame, `camera_image_t`. -/
structure camera_image_t where
  width : Nat
  height : Nat
  bytes_per_pixel : Nat
  image_size : Nat
  stamp : timespec
  image : List Nat
  is_new : Int
deriving DecidableEq, Repr

/-- Every call the class makes to the operating system or the C allocator. -/
inductive Call where
  | stat
  | sys_open
  | close (fd : Int)
  | select (fd : Int)
  | read (fd : Int)
  | timespec_get
  | VIDIOC_QUERYCAP
  | VIDIOC_CROPCAP
  | VIDIOC_S_CROP
  | VIDIOC_S_FMT (width height : Nat)
  | VIDIOC_G_PARM
  | VIDIOC_S_PARM
  | VIDIOC_REQBUFS
  | VIDIOC_QUERYBUF (index : Nat)
  | VIDIOC_QBUF (index : Nat)
  | VIDIOC_DQBUF
  | VIDIOC_STREAMON
  | VIDIOC_STREAMOFF
  | mmap (index : Nat)
  | munmap (start length : Nat)
  | calloc (count : Nat)
  | malloc (size : Nat)
  | memalign (boundary size : Nat)
  | free (ptr : Nat)
  | popen (command : String)
  | pclose
deriving DecidableEq, Repr

/-- The answers of the operating system during one invocation of a member
function.  Failure of an `ioctl` (return value `-1`) is `none` or `false`; the
class never branches on the value of `errno` except to choose a log message.
Pointers are addresses, `0` being `NULL`.  The default value of each field is
the answer of a device and an allocator on which the call succeeds; the
default of the dequeue is a failure, as no frame is ready until a device says
so. -/
structure Kernel where
  /-- Answer of `stat`: `none` when it fails, else whether the node is a character device. -/
  stat : Option Bool := some true
  /-- Return value of `open`: a descriptor, or `-1`. -/
  sys_open : Int := 3
  /-- Whether `close` succeeds. -/
  close : Bool := true
  /-- Return value `r` of `select`. -/
  select : Int := 1
  /-- Return value of `read`. -/
  read : Int := 0
  /-- The wall clock read by `timespec_get`. -/
  timespec_get : timespec := ⟨0, 0⟩
  /-- The capability word, or `none` when the query fails. -/
  VIDIOC_QUERYCAP : Option Nat := some (V4L2_CAP_VIDEO_CAPTURE ||| V4L2_CAP_READWRITE ||| V4L2_CAP_STREAMING)
  /-- Whether the crop-capability query returns `0`. -/
  VIDIOC_CROPCAP : Bool := true
  /-- Whether the crop reset succeeds. -/
  VIDIOC_S_CROP : Bool := true
  /-- The format the driver reports back for a requested format, or `none` on failure. -/
  VIDIOC_S_FMT : v4l2_pix_format → Option v4l2_pix_format := fun f => some f
  /-- The capture capability flags of the stream parameters, or `none` on failure. -/
  VIDIOC_G_PARM : Option Nat := some 0x1000
  /-- Whether setting the stream parameters succeeds. -/
  VIDIOC_S_PARM : Bool := true
  /-- The buffer count granted for a request, or `none` on failure. -/
  VIDIOC_REQBUFS : Option Nat := some 4
  /-- Length and offset of the buffer with a given index, or `none` on failure. -/
  VIDIOC_QUERYBUF : Nat → Option (Nat × Nat) := fun i => some (4096, 4096 * i)
  /-- Address returned by the `mmap` of the buffer with a given index, `none` for `MAP_FAILED`. -/
  mmap : Nat → Option Nat := fun i => some (0x10000 + 4096 * i)
  /-- Whether the `munmap` of a region succeeds. -/
  munmap : Nat → Nat → Bool := fun _ _ => true
  /-- Address returned by the `calloc` of the buffer array. -/
  calloc : Nat := 0x1000
  /-- Address returned by `malloc`. -/
  malloc : Nat := 0x2000
  /-- Address returned by the `memalign` of the buffer with a given index. -/
  memalign : Nat → Nat := fun i => 0x20000 + 0x10000 * i
  /-- The page size. -/
  getpagesize : Nat := 4096
  /-- Whether enqueueing the buffer with a given index succeeds. -/
  VIDIOC_QBUF : Nat → Bool := fun _ => true
  /-- Whether stream-on succeeds. -/
  VIDIOC_STREAMON : Bool := true
  /-- Whether stream-off succeeds. -/
  VIDIOC_STREAMOFF : Bool := true
  /-- The dequeued buffer, or `none` when the dequeue fails. -/
  VIDIOC_DQBUF : Option v4l2_buffer := none
  /-- The bytes found at an address handed to the pixel decoder. -/
  memory : Nat → List Nat := fun _ => []
  /-- Whether `avcodec_find_decoder` finds the codec. -/
  avcodec_find_decoder : Bool := true
  /-- Whether `avcodec_open2` succeeds. -/
  avcodec_open2 : Bool := true
  /-- Answer of `popen` for a command line: `none` when the command cannot be
  run, else the whole text the command writes to its output until it ends. -/
  popen : String → Option String := fun _ => some ""

/-- The conversion functions of `usb_cam/conversions.hpp`, whose bodies are not
part of the sources at hand.  Their argument lists are those of the call sites
in `UsbCam::process_image`; each returns its `bool` result and the new
contents of the destination bytes. -/
structure Conversions where
  MONO102MONO8 : (src : List Nat) → (dest : List Nat) → (NumPixels : Nat) → Bool × List Nat
  YUYV2RGB : (src : List Nat) → (dest : List Nat) → (NumPixels : Nat) → Bool × List Nat
  UYVY2RGB : (src : List Nat) → (dest : List Nat) → (NumPixels : Nat) → Bool × List Nat
  MJPEG2RGB : (src : List Nat) → (len : Int) → (dest : List Nat) → (NumPixels : Nat) → Bool × List Nat
  COPY2RGB : (src : List Nat) → (dest : List Nat) → (NumPixels : Nat) → Bool × List Nat
  YUV4202RGB : (src : List Nat) → (dest : List Nat) → (width height : Nat) → Bool × List Nat

/-- The data members of `usb_cam::UsbCam`.  `buffers_` is the address held by
the pointer member and `buffers_data` the contents of the array it points at
(kept after the array is freed, as the memory is).  The members
`avframe_camera_size_`, `avframe_rgb_size_`, `avoptions_` and `video_sws_` are
never read by the functions embedded here and are left out; pointer members of
the decoder are recorded by whether they are non-null. -/
structure UsbCam where
  camera_dev_ : String
  io_ : io_method
  fd_ : Int
  buffers_ : Nat
  buffers_data : List buffer
  n_buffers_ : Nat
  avframe_camera_ : Bool
  avframe_rgb_ : Bool
  avcodec_ : Bool
  avcodec_context_ : Bool
  image_ : Option camera_image_t
  is_capturing_ : Bool
  epoch_time_shift_ : Int
  monochrome_ : Bool
  pixelformat_ : Nat
  trace : List Call
deriving DecidableEq, Repr

/-- The state built by the constructor `UsbCam::UsbCam()`.  The members
`monochrome_` and `pixelformat_` are not initialised there; they are given the
values `false` and `0`. -/
def UsbCam.new (epoch_time_shift : Int) : UsbCam :=
  { camera_dev_ := "", io_ := io_method.IO_METHOD_MMAP, fd_ := -1, buffers_ := 0,
    buffers_data := [], n_buffers_ := 0, avframe_camera_ := false, avframe_rgb_ := false,
    avcodec_ := false, avcodec_context_ := false, image_ := none, is_capturing_ := false,
    epoch_time_shift_ := epoch_time_shift, monochrome_ := false, pixelformat_ := 0, trace := [] }

/-- Record a call in the trace. -/
def UsbCam.call (s : UsbCam) (c : Call) : UsbCam :=
  { s with trace := s.trace ++ [c] }

/-! ## The pixel decoder dispatch -/

/-- The member function `UsbCam::process_image(src, len, dest)`, lines 167-201.  `src` is the
content of the source bytes. -/
def process_image (cv : Conversions) (s : UsbCam) (src : List Nat) (len : Int)
    (dest : camera_image_t) : Bool × camera_image_t :=
  if s.pixelformat_ = V4L2_PIX_FMT_YUYV then
    if s.monochrome_ then
      let r := cv.MONO102MONO8 src dest.image (u32 (dest.width * dest.height))
      (r.1, { dest with image := r.2 })
    else
      let r := cv.YUYV2RGB src dest.image (u32 (dest.width * dest.height))
      (r.1, { dest with image := r.2 })
  else if s.pixelformat_ = V4L2_PIX_FMT_UYVY then
    let r := cv.UYVY2RGB src dest.image (u32 (dest.width * dest.height))
    (r.1, { dest with image := r.2 })
  else if s.pixelformat_ = V4L2_PIX_FMT_MJPEG ∨ s.pixelformat_ = V4L2_PIX_FMT_H264 then
    let r := cv.MJPEG2RGB src len dest.image (u32 (dest.width * dest.height))
    (r.1, { dest with image := r.2 })
  else if s.pixelformat_ = V4L2_PIX_FMT_RGB24 ∨ s.pixelformat_ = V4L2_PIX_FMT_GREY then
    let r := cv.COPY2RGB src dest.image (u32 (dest.width * dest.height))
    (r.1, { dest with image := r.2 })
  else if s.pixelformat_ = V4L2_PIX_FMT_YUV420 then
    let r := cv.YUV4202RGB src dest.image dest.width dest.height
    (r.1, { dest with image := r.2 })
  else
    (false, dest)

/-! ## The capture loop -/

/-- The search loop of the user-pointer branch of `read_frame`, lines 308-314:
`for (i = 0; i < n_buffers_; ++i)` leaving the loop at the first buffer that
has the address and length of the dequeued buffer.  The first argument counts
the iterations that remain, so the current index is `n_buffers` minus it; the
result is the value of `i` after the loop, or `none` when the loop reads past
the last element of the array. -/
def find_userptr (buf : v4l2_buffer) (bs : List buffer) (n_buffers : Nat) : Nat → Option Nat
  | 0 => some n_buffers
  | r + 1 =>
    match bs[n_buffers - (r + 1)]? with
    | none => none
    | some b =>
      if buf.userptr = b.start ∧ buf.length = b.length then some (n_buffers - (r + 1))
      else find_userptr buf bs n_buffers r

/-- The member function `UsbCam::read_frame()`, lines 203-335. -/
def read_frame (cv : Conversions) (k : Kernel) (s : UsbCam) : Option (Bool × UsbCam) :=
  match s.io_ with
  | io_method.IO_METHOD_READ =>
    if s.buffers_ = 0 then none else
    match s.buffers_data[0]? with
    | none => none
    | some b0 =>
      let s1 := s.call (Call.read s.fd_)
      let len := k.read
      if len = -1 then some (false, s1) else
      match s1.image_ with
      | none => none
      | some img =>
        let r := process_image cv s1 (k.memory b0.start) len img
        let s2 := { s1 with image_ := some r.2 }
        if r.1 = false then some (false, s2) else some (true, s2)
  | io_method.IO_METHOD_MMAP =>
    let s1 := s.call Call.VIDIOC_DQBUF
    match k.VIDIOC_DQBUF with
    | none => some (false, s1)
    | some buf =>
      let buffer_time_s := buf.timestamp.tv_sec + round_div buf.timestamp.tv_usec 1000000
      let stamp : timespec :=
        { tv_sec := buffer_time_s + s1.epoch_time_shift_, tv_nsec := buf.timestamp.tv_usec * 1000 }
      if ¬ buf.index < s1.n_buffers_ then none else
      match s1.buffers_data[buf.index]? with
      | none => none
      | some b =>
        let len := toInt32 buf.bytesused
        match s1.image_ with
        | none => none
        | some img =>
          let r := process_image cv s1 (k.memory b.start) len img
          let s2 := { s1 with image_ := some r.2 }
          if r.1 = false then some (false, s2) else
          let s3 := s2.call (Call.VIDIOC_QBUF buf.index)
          if k.VIDIOC_QBUF buf.index = false then some (false, s3) else
          some (true, { s3 with image_ := some { r.2 with stamp := stamp } })
  | io_method.IO_METHOD_USERPTR =>
    let s1 := s.call Call.VIDIOC_DQBUF
    match k.VIDIOC_DQBUF with
    | none => some (false, s1)
    | some buf =>
      let buffer_time_s := buf.timestamp.tv_sec + round_div buf.timestamp.tv_usec 1000000
      let stamp : timespec :=
        { tv_sec := buffer_time_s + s1.epoch_time_shift_,
          tv_nsec := trunc_div buf.timestamp.tv_usec 1000 }
      match find_userptr buf s1.buffers_data s1.n_buffers_ s1.n_buffers_ with
      | none => none
      | some i =>
        if ¬ i < s1.n_buffers_ then none else
        let len := toInt32 buf.bytesused
        match s1.image_ with
        | none => none
        | some img =>
          let r := process_image cv s1 (k.memory buf.userptr) len img
          let s2 := { s1 with image_ := some r.2 }
          if r.1 = false then some (false, s2) else
          let s3 := s2.call (Call.VIDIOC_QBUF buf.index)
          if k.VIDIOC_QBUF buf.index = false then some (false, s3) else
          some (true, { s3 with image_ := some { r.2 with stamp := stamp } })
  | io_method.IO_METHOD_UNKNOWN => some (true, s)

/-- The member function `UsbCam::is_capturing()`, lines 337-340. -/
def is_capturing (s : UsbCam) : Bool := s.is_capturing_

/-- The member function `UsbCam::grab_image()`, lines 953-993. -/
def grab_image (cv : Conversions) (k : Kernel) (s : UsbCam) : Option (Bool × UsbCam) :=
  let s1 := s.call (Call.select s.fd_)
  let r := k.select
  match s1.image_ with
  | none => none
  | some img =>
    let s2 := { s1.call Call.timespec_get with image_ := some { img with stamp := k.timespec_get } }
    if r = -1 then some (false, s2) else
    if r = 0 then some (false, s2) else
    match read_frame cv k s2 with
    | none => none
    | some (false, s3) => some (false, s3)
    | some (true, s3) =>
      match s3.image_ with
      | none => none
      | some img3 => some (true, { s3 with image_ := some { img3 with is_new := 1 } })

/-! ## Starting and stopping the stream -/

/-- The member function `UsbCam::stop_capturing()`, lines 342-369. -/
def stop_capturing (k : Kernel) (s : UsbCam) : Bool × UsbCam :=
  if s.is_capturing_ = false then (false, s) else
  let s1 := { s with is_capturing_ := false }
  match s1.io_ with
  | io_method.IO_METHOD_READ => (true, s1)
  | io_method.IO_METHOD_MMAP | io_method.IO_METHOD_USERPTR =>
    let s2 := s1.call Call.VIDIOC_STREAMOFF
    if k.VIDIOC_STREAMOFF = false then (false, s2) else (true, s2)
  | io_method.IO_METHOD_UNKNOWN => (true, s1)

/-- The enqueue loops of `start_capturing`, lines 384-397 and 408-423:
`for (i = 0; i < n_buffers_; ++i)` submitting buffer `i`, leaving the function
with `false` at the first failure.  The first argument counts the iterations
that remain.  Both loops put `i` into `buf.index`; the user-pointer loop also
copies the address and length of `buffers_[i]` into the request, which has no
effect on the control flow. -/
def enqueue_all (k : Kernel) (n_buffers : Nat) : Nat → UsbCam → Bool × UsbCam
  | 0, s => (true, s)
  | r + 1, s =>
    let s1 := s.call (Call.VIDIOC_QBUF (n_buffers - (r + 1)))
    if k.VIDIOC_QBUF (n_buffers - (r + 1)) = false then (false, s1)
    else enqueue_all k n_buffers r s1

/-- The member function `UsbCam::start_capturing()`, lines 371-439. -/
def start_capturing (k : Kernel) (s : UsbCam) : Bool × UsbCam :=
  if s.is_capturing_ = true then (false, s) else
  match s.io_ with
  | io_method.IO_METHOD_READ => (true, { s with is_capturing_ := true })
  | io_method.IO_METHOD_MMAP | io_method.IO_METHOD_USERPTR =>
    let q := enqueue_all k s.n_buffers_ s.n_buffers_ s
    if q.1 = false then (false, q.2) else
    let s2 := q.2.call Call.VIDIOC_STREAMON
    if k.VIDIOC_STREAMON = false then (false, s2) else
    (true, { s2 with is_capturing_ := true })
  | io_method.IO_METHOD_UNKNOWN => (true, { s with is_capturing_ := true })

/-! ## The buffer pool -/

/-- The unmapping loop of `uninit_device`, lines 451-456.  The first argument
counts the iterations that remain. -/
def munmap_all (k : Kernel) (bs : List buffer) (n_buffers : Nat) :
    Nat → UsbCam → Option (Bool × UsbCam)
  | 0, s => some (true, s)
  | r + 1, s =>
    match bs[n_buffers - (r + 1)]? with
    | none => none
    | some b =>
      let s1 := s.call (Call.munmap b.start b.length)
      if k.munmap b.start b.length = false then some (false, s1)
      else munmap_all k bs n_buffers r s1

/-- The freeing loop of `uninit_device`, lines 460-462.  The first argument
counts the iterations that remain. -/
def free_all (bs : List buffer) (n_buffers : Nat) : Nat → UsbCam → Option UsbCam
  | 0, s => some s
  | r + 1, s =>
    match bs[n_buffers - (r + 1)]? with
    | none => none
    | some b => free_all bs n_buffers r (s.call (Call.free b.start))

/-- The member function `UsbCam::uninit_device()`, lines 441-471. -/
def uninit_device (k : Kernel) (s : UsbCam) : Option (Bool × UsbCam) :=
  match s.io_ with
  | io_method.IO_METHOD_READ =>
    if s.buffers_ = 0 then none else
    match s.buffers_data[0]? with
    | none => none
    | some b0 => some (true, (s.call (Call.free b0.start)).call (Call.free s.buffers_))
  | io_method.IO_METHOD_MMAP =>
    match munmap_all k s.buffers_data s.n_buffers_ s.n_buffers_ s with
    | none => none
    | some (false, s1) => some (false, s1)
    | some (true, s1) => some (true, s1.call (Call.free s1.buffers_))
  | io_method.IO_METHOD_USERPTR =>
    match free_all s.buffers_data s.n_buffers_ s.n_buffers_ s with
    | none => none
    | some s1 => some (true, s1.call (Call.free s1.buffers_))
  | io_method.IO_METHOD_UNKNOWN => some (true, s.call (Call.free s.buffers_))

/-- The array of `count` zeroed buffers that a successful `calloc` yields. -/
def zeroed_buffers (count : Nat) : List buffer := List.replicate count ⟨0, 0⟩

/-- The member function `UsbCam::init_read(buffer_size)`, lines 473-490. -/
def init_read (k : Kernel) (s : UsbCam) (buffer_size : Nat) : Bool × UsbCam :=
  let s1 := { s.call (Call.calloc 1) with
    buffers_ := k.calloc, buffers_data := if k.calloc = 0 then [] else zeroed_buffers 1 }
  if s1.buffers_ = 0 then (false, s1) else
  let s2 := s1.call (Call.malloc buffer_size)
  let s3 := { s2 with buffers_data := s2.buffers_data.set 0 ⟨k.malloc, buffer_size⟩ }
  if k.malloc = 0 then (false, s3) else (true, s3)

/-- The mapping loop of `init_mmap`, lines 528-552:
`for (n_buffers_ = 0; n_buffers_ < req.count; ++n_buffers_)`.  The first
argument counts the iterations that remain, so the loop variable `n_buffers_`
is `count` minus it on entry to each iteration. -/
def mmap_all (k : Kernel) (count : Nat) : Nat → UsbCam → Bool × UsbCam
  | 0, s => (true, { s with n_buffers_ := count })
  | r + 1, s =>
    let s0 := { s with n_buffers_ := count - (r + 1) }
    let s1 := s0.call (Call.VIDIOC_QUERYBUF s0.n_buffers_)
    match k.VIDIOC_QUERYBUF s0.n_buffers_ with
    | none => (false, s1)
    | some (length, _) =>
      let s2 := s1.call (Call.mmap s1.n_buffers_)
      match k.mmap s1.n_buffers_ with
      | none =>
        (false, { s2 with buffers_data := s2.buffers_data.set s2.n_buffers_ ⟨MAP_FAILED, length⟩ })
      | some addr =>
        mmap_all k count r
          { s2 with buffers_data := s2.buffers_data.set s2.n_buffers_ ⟨addr, length⟩ }

/-- The member function `UsbCam::init_mmap()`, lines 492-554. -/
def init_mmap (k : Kernel) (s : UsbCam) : Bool × UsbCam :=
  let s1 := s.call Call.VIDIOC_REQBUFS
  match k.VIDIOC_REQBUFS with
  | none => (false, s1)
  | some count =>
    if count < 2 then (false, s1) else
    let s2 := { s1.call (Call.calloc count) with
      buffers_ := k.calloc, buffers_data := if k.calloc = 0 then [] else zeroed_buffers count }
    if s2.buffers_ = 0 then (false, s2) else
    mmap_all k count count s2

/-- The bitwise complement of an `unsigned int`. -/
def not32 (n : Nat) : Nat := 2 ^ 32 - 1 - u32 n

/-- The allocation loop of `init_userp`, lines 589-597:
`for (n_buffers_ = 0; n_buffers_ < 4; ++n_buffers_)`.  The first argument
counts the iterations that remain. -/
def memalign_all (k : Kernel) (page_size buffer_size : Nat) : Nat → UsbCam → Bool × UsbCam
  | 0, s => (true, { s with n_buffers_ := 4 })
  | r + 1, s =>
    let s0 := { s with n_buffers_ := 4 - (r + 1) }
    let s1 := s0.call (Call.memalign page_size buffer_size)
    let s2 := { s1 with
      buffers_data := s1.buffers_data.set s1.n_buffers_ ⟨k.memalign s1.n_buffers_, buffer_size⟩ }
    if k.memalign s1.n_buffers_ = 0 then (false, s2) else memalign_all k page_size buffer_size r s2

/-- The member function `UsbCam::init_userp(buffer_size)`, lines 556-599. -/
def init_userp (k : Kernel) (s : UsbCam) (buffer_size : Nat) : Bool × UsbCam :=
  let page_size := u32 k.getpagesize
  let buffer_size1 := u32 (buffer_size + page_size + (2 ^ 32 - 1)) &&& not32 (page_size + (2 ^ 32 - 1))
  let s1 := s.call Call.VIDIOC_REQBUFS
  match k.VIDIOC_REQBUFS with
  | none => (false, s1)
  | some _ =>
    let s2 := { s1.call (Call.calloc 4) with
      buffers_ := k.calloc, buffers_data := if k.calloc = 0 then [] else zeroed_buffers 4 }
    if s2.buffers_ = 0 then (false, s2) else
    memalign_all k page_size buffer_size1 4 s2

/-! ## The device session -/

/-- The member function `UsbCam::init_device(image_width, image_height, framerate)`,
lines 601-748.  The two sizes are parameters passed by value: the assignments
to them at lines 704-705 change the local copies only, which are not read
afterwards.  The results of the three allocators are discarded, as at lines
731-746. -/
def init_device (k : Kernel) (s : UsbCam) (image_width image_height : Nat) (framerate : Int) :
    Bool × UsbCam :=
  let _ := framerate
  let s1 := s.call Call.VIDIOC_QUERYCAP
  match k.VIDIOC_QUERYCAP with
  | none => (false, s1)
  | some capabilities =>
    if capabilities &&& V4L2_CAP_VIDEO_CAPTURE = 0 then (false, s1) else
    if s1.io_ = io_method.IO_METHOD_READ ∧ capabilities &&& V4L2_CAP_READWRITE = 0 then
      (false, s1) else
    if (s1.io_ = io_method.IO_METHOD_MMAP ∨ s1.io_ = io_method.IO_METHOD_USERPTR) ∧
        capabilities &&& V4L2_CAP_STREAMING = 0 then (false, s1) else
    let s2 := s1.call Call.VIDIOC_CROPCAP
    let s3 := if k.VIDIOC_CROPCAP = true then s2.call Call.VIDIOC_S_CROP else s2
    let s4 := s3.call (Call.VIDIOC_S_FMT image_width image_height)
    match k.VIDIOC_S_FMT
      { width := image_width, height := image_height, pixelformat := s4.pixelformat_,
        bytesperline := 0, sizeimage := 0 } with
    | none => (false, s4)
    | some fmt =>
      let min1 := u32 (fmt.width * 2)
      let bytesperline := if fmt.bytesperline < min1 then min1 else fmt.bytesperline
      let min2 := u32 (bytesperline * fmt.height)
      let sizeimage := if fmt.sizeimage < min2 then min2 else fmt.sizeimage
      let s5 := s4.call Call.VIDIOC_G_PARM
      match k.VIDIOC_G_PARM with
      | none => (false, s5)
      | some _ =>
        let s6 := s5.call Call.VIDIOC_S_PARM
        match s6.io_ with
        | io_method.IO_METHOD_READ => (true, (init_read k s6 sizeimage).2)
        | io_method.IO_METHOD_MMAP => (true, (init_mmap k s6).2)
        | io_method.IO_METHOD_USERPTR => (true, (init_userp k s6 sizeimage).2)
        | io_method.IO_METHOD_UNKNOWN => (true, s6)

/-- The member function `UsbCam::close_device()`, lines 750-759. -/
def close_device (k : Kernel) (s : UsbCam) : Bool × UsbCam :=
  let s1 := s.call (Call.close s.fd_)
  if k.close = false then (false, s1) else (true, { s1 with fd_ := -1 })

/-- The member function `UsbCam::open_device()`, lines 761-786. -/
def open_device (k : Kernel) (s : UsbCam) : Bool × UsbCam :=
  let s1 := s.call Call.stat
  match k.stat with
  | none => (false, s1)
  | some is_chr =>
    if is_chr = false then (false, s1) else
    let s2 := { s1.call Call.sys_open with fd_ := k.sys_open }
    if s2.fd_ = -1 then (false, s2) else (true, s2)

/-- The member function `UsbCam::init_decoder`, lines 79-155, as far as the data
members go: the codec is looked up, and when it is found the context and the
two frames are allocated before the codec is opened. -/
def init_decoder (k : Kernel) (s : UsbCam) : Int × UsbCam :=
  let s1 := { s with avcodec_ := k.avcodec_find_decoder }
  if s1.avcodec_ = false then (0, s1) else
  let s2 := { s1 with avcodec_context_ := true, avframe_camera_ := true, avframe_rgb_ := true }
  if k.avcodec_open2 = false then (0, s2) else (1, s2)

/-- The tail of `UsbCam::start`, lines 823-844, after the pixel format has been
chosen: open, configure, start the stream, allocate the output frame.  The two
`calloc` calls for the output frame are taken to succeed. -/
def start_device (k : Kernel) (s : UsbCam) (image_width image_height : Nat) (framerate : Int) :
    Bool × UsbCam :=
  let o := open_device k s
  if o.1 = false then (false, o.2) else
  let d := init_device k o.2 image_width image_height framerate
  if d.1 = false then (false, d.2) else
  let c := start_capturing k d.2
  if c.1 = false then (false, c.2) else
  let image_size := u32 (image_width * image_height * 3)
  let image : camera_image_t :=
    { width := image_width, height := image_height, bytes_per_pixel := 3,
      image_size := image_size, stamp := ⟨0, 0⟩,
      image := List.replicate (image_size * sizeof_char_ptr) 0, is_new := 0 }
  (true, { c.2 with image_ := some image })

/-- The member function `UsbCam::start`, lines 788-845. -/
def start (k : Kernel) (s : UsbCam) (dev : String) (io : io_method) (pf : pixel_format)
    (cf : color_format) (image_width image_height : Nat) (framerate : Int) : Bool × UsbCam :=
  let _ := cf
  let s1 := { s with camera_dev_ := dev, io_ := io, monochrome_ := false }
  match pf with
  | pixel_format.PIXEL_FORMAT_YUYV =>
    start_device k { s1 with pixelformat_ := V4L2_PIX_FMT_YUYV } image_width image_height framerate
  | pixel_format.PIXEL_FORMAT_UYVY =>
    start_device k { s1 with pixelformat_ := V4L2_PIX_FMT_UYVY } image_width image_height framerate
  | pixel_format.PIXEL_FORMAT_MJPEG =>
    start_device k (init_decoder k { s1 with pixelformat_ := V4L2_PIX_FMT_MJPEG }).2
      image_width image_height framerate
  | pixel_format.PIXEL_FORMAT_H264 =>
    start_device k (init_decoder k { s1 with pixelformat_ := V4L2_PIX_FMT_H264 }).2
      image_width image_height framerate
  | pixel_format.PIXEL_FORMAT_YUVMONO10 =>
    start_device k { s1 with pixelformat_ := V4L2_PIX_FMT_YUYV, monochrome_ := true }
      image_width image_height framerate
  | pixel_format.PIXEL_FORMAT_RGB24 =>
    start_device k { s1 with pixelformat_ := V4L2_PIX_FMT_RGB24 } image_width image_height framerate
  | pixel_format.PIXEL_FORMAT_GREY =>
    start_device k { s1 with pixelformat_ := V4L2_PIX_FMT_GREY, monochrome_ := true }
      image_width image_height framerate
  | pixel_format.PIXEL_FORMAT_YU12 =>
    start_device k { s1 with pixelformat_ := V4L2_PIX_FMT_YUV420 } image_width image_height framerate
  | pixel_format.PIXEL_FORMAT_UNKNOWN => (false, s1)

/-- The member function `UsbCam::shutdown()`, lines 847-871.  The results of the
three teardown steps are discarded; the decoder objects and the output frame
are released when their pointers are non-null, and those pointers are then
cleared. -/
def shutdown (k : Kernel) (s : UsbCam) : Option (Bool × UsbCam) :=
  let s1 := (stop_capturing k s).2
  match uninit_device k s1 with
  | none => none
  | some u =>
    let s3 := (close_device k u.2).2
    some (true, { s3 with
      avcodec_context_ := false, avframe_camera_ := false, avframe_rgb_ := false, image_ := none })

/-! ## The image handed to the caller and the control passthrough -/

/-- The six reference arguments of `UsbCam::get_image`. -/
structure image_out where
  stamp : timespec
  encoding : String
  height : Nat
  width : Nat
  step : Nat
  data : List Nat
deriving DecidableEq, Repr

/-- The member function `UsbCam::get_image(stamp, encoding, height, width, step, data)`,
lines 873-904.  `out` holds the values of the six reference arguments on
entry, and the third component of the result their values on return.  The
vector is resized to `step * height` elements and then overwritten from its
first to its last element with the bytes of the frame, so its new contents
are the first `step * height` bytes of the frame; a frame with fewer bytes
than that makes the copy read past its last byte. -/
def get_image (cv : Conversions) (k : Kernel) (s : UsbCam) (out : image_out) :
    Option (Bool × UsbCam × image_out) :=
  match s.image_ with
  | none => none
  | some img =>
    if img.width = 0 ∨ img.height = 0 then some (false, s, out) else
    match grab_image cv k s with
    | none => none
    | some (false, s1) => some (false, s1, out)
    | some (true, s1) =>
      match s1.image_ with
      | none => none
      | some img1 =>
        let height := img1.height
        let width := img1.width
        let encoding := if s1.monochrome_ = true then "mono8" else "rgb8"
        let step := if s1.monochrome_ = true then width else u32 (width * 3)
        let size := u32 (step * height)
        if img1.image.length < size then none else
        some (true, s1,
          { stamp := img1.stamp, encoding := encoding, height := height, width := width,
            step := step, data := img1.image.take size })

/-- The member function `UsbCam::set_v4l_parameter(param, value)` with a string
value, lines 1047-1077.  The local `retcode` is an `int` that is `0` or `1`;
the function returns it as a `bool`, which is `true` when it is not zero. -/
def set_v4l_parameter (k : Kernel) (s : UsbCam) (param value : String) : Bool × UsbCam :=
  let cmd := "v4l2-ctl --device=" ++ s.camera_dev_ ++ " -c " ++ param ++ "=" ++ value ++ " 2>&1"
  let s1 := s.call (Call.popen cmd)
  match k.popen cmd with
  | some output =>
    let s2 := s1.call Call.pclose
    let retcode : Int := if output.length > 0 then 1 else 0
    (decide (retcode ≠ 0), s2)
  | none =>
    let retcode : Int := 1
    (decide (retcode ≠ 0), s1)

/-- The member function `UsbCam::set_v4l_parameter(param, value)` with an `int`
value, lines 1034-1039: the value is printed in decimal and passed on. -/
def set_v4l_parameter_int (k : Kernel) (s : UsbCam) (param : String) (value : Int) :
    Bool × UsbCam :=
  set_v4l_parameter k s param (toString value)

/-! ## The node: publishing one frame -/

/-- A `sensor_msgs::msg::Image`: the stamp of the header (`int32` seconds and
`uint32` nanoseconds) and its frame id, then `uint32 height`, `uint32 width`,
`string encoding`, `uint8 is_bigendian`, `uint32 step` and `uint8[] data`. -/
structure Image where
  stamp_sec : Int
  stamp_nanosec : Nat
  frame_id : String
  height : Nat
  width : Nat
  encoding : String
  is_bigendian : Nat
  step : Nat
  data : List Nat
deriving DecidableEq, Repr

/-- The members of the camera object that `UsbCamNode::take_and_send_image`
calls.  The node is written against accessors that `usb_cam.cpp` does not
define, so what they return during one call is taken as given: the four sizes
as natural numbers, the encoding name returned by `get_pixel_format()->ros()`,
the time stamp, and for `get_image(char *)`, which receives the address of the
first byte of the buffer, the byte it leaves at each index of the buffer given
the bytes that were there. -/
structure NodeCamera where
  get_image_size : Nat
  get_image_width : Nat
  get_image_height : Nat
  ros : String
  get_image_step : Nat
  get_image : List Nat → Nat → Nat
  get_image_timestamp : timespec

/-- The call `data.resize(n)` of a `std::vector<uint8_t>`: the first `n`
elements are kept and the vector is padded with zeros up to length `n`. -/
def resize (data : List Nat) (n : Nat) : List Nat :=
  data.take n ++ List.replicate (n - data.length) 0

/-- The member function `UsbCamNode::take_and_send_image()`, lines 237-264 of
`usb_cam_node.cpp`.  The second component of the result is the image message
handed to `publish`.  The assignments to the `uint32` fields of the message
reduce the assigned value to 32 bits, and the stamp is narrowed to the field
types of the header.  The result is `none` where the code divides by a zero
height (line 248) or takes `data[0]` of an empty vector (line 254).  The resize
of the vector is taken to succeed.  The camera-info message, which receives a
copy of the header and is published alongside, is not part of the state. -/
def take_and_send_image (m_camera : NodeCamera) (m_image_msg : Image) : Option (Bool × Image) :=
  let resized : Option Image :=
    if m_image_msg.data.length ≠ m_camera.get_image_size then
      let m1 : Image :=
        { m_image_msg with
          width := u32 m_camera.get_image_width,
          height := u32 m_camera.get_image_height,
          encoding := m_camera.ros,
          step := u32 m_camera.get_image_step }
      let m2 : Option Image :=
        if m1.step = 0 then
          if m1.height = 0 then none
          else
            let m : Image := { m1 with step := u32 (m_camera.get_image_size / m1.height) }
            some m
        else some m1
      m2.map (fun m => { m with data := resize m.data m_camera.get_image_size })
    else some m_image_msg
  match resized with
  | none => none
  | some m =>
    if m.data = [] then none else
    let stamp := m_camera.get_image_timestamp
    let m3 : Image :=
      { m with
        data := (List.range m.data.length).map (m_camera.get_image m.data),
        stamp_sec := toInt32 (stamp.tv_sec % 2 ^ 32).toNat,
        stamp_nanosec := (stamp.tv_nsec % 2 ^ 32).toNat }
    some (true, m3)

/-! ## Concrete devices and sessions used to evaluate the code -/

/-- Converters that report success and leave the destination as it is. -/
def conv_ok : Conversions :=
  { MONO102MONO8 := fun _ dest _ => (true, dest), YUYV2RGB := fun _ dest _ => (true, dest),
    UYVY2RGB := fun _ dest _ => (true, dest), MJPEG2RGB := fun _ _ dest _ => (true, dest),
    COPY2RGB := fun _ dest _ => (true, dest), YUV4202RGB := fun _ dest _ _ => (true, dest) }

/-- Converters that report failure and leave the destination as it is. -/
def conv_fail : Conversions :=
  { MONO102MONO8 := fun _ dest _ => (false, dest), YUYV2RGB := fun _ dest _ => (false, dest),
    UYVY2RGB := fun _ dest _ => (false, dest), MJPEG2RGB := fun _ _ dest _ => (false, dest),
    COPY2RGB := fun _ dest _ => (false, dest), YUV4202RGB := fun _ dest _ _ => (false, dest) }

/-- A device on which every call succeeds and which grants two buffers. -/
def two_buffer_device : Kernel := { VIDIOC_REQBUFS := some 2 }

/-- A device whose next answer to a dequeue is the buffer `index` stamped
`tv_sec` seconds and `tv_usec` microseconds, located at the address the
allocators of `two_buffer_device` give to that index. -/
def dequeue_device (io : io_method) (index : Nat) (tv_sec tv_usec : Int) : Kernel :=
  { VIDIOC_DQBUF := some
      { index := index, bytesused := 16, timestamp := ⟨tv_sec, tv_usec⟩,
        userptr := if io = io_method.IO_METHOD_USERPTR then 0x20000 + 0x10000 * index else 0,
        length := 4096 } }

/-- The session obtained from a fresh object by
`start("/dev/video0", io, pf, COLOR_FORMAT_YUV420P, 4, 2, 10)` on `two_buffer_device`,
with epoch time shift `7`. -/
def started (io : io_method) (pf : pixel_format) : UsbCam :=
  (start two_buffer_device (UsbCam.new 7) "/dev/video0" io pf
    color_format.COLOR_FORMAT_YUV420P 4 2 10).2

/-- A device on which every call succeeds and which answers every format
negotiation with the sizes `320` by `240`. -/
def resizing_device : Kernel :=
  { VIDIOC_REQBUFS := some 2,
    VIDIOC_S_FMT := fun f =>
      some { f with width := 320, height := 240, bytesperline := 640, sizeimage := 153600 } }

/-- A device that grants a single buffer to a request for buffers. -/
def one_buffer_device : Kernel := { VIDIOC_REQBUFS := some 1 }

/-- A device that rejects the request for buffers. -/
def no_buffer_device : Kernel := { VIDIOC_REQBUFS := none }

/-- A machine on which the allocation of the buffer array fails. -/
def no_memory_device : Kernel := { calloc := 0 }

/-- A device on which every call succeeds except `close`. -/
def close_failing_device : Kernel := { close := false }

/-- The result of a `start` together with the capturing flag, the buffer count,
the address of the buffer array and the trace of the session it leaves. -/
def start_outcome (r : Bool × UsbCam) : Bool × Bool × Nat × Nat × List Call :=
  (r.1, r.2.is_capturing_, r.2.n_buffers_, r.2.buffers_, r.2.trace)

/-- A device on which the readiness wait times out. -/
def timeout_device : Kernel := { select := 0 }

/-- The memory-mapped session `started IO_METHOD_MMAP PIXEL_FORMAT_YUYV` after a
successful `stop_capturing`: its frame is allocated and its descriptor open,
and it is not capturing. -/
def stopped : UsbCam :=
  (stop_capturing two_buffer_device
    (started io_method.IO_METHOD_MMAP pixel_format.PIXEL_FORMAT_YUYV)).2

/-- An output frame of `4` by `2` pixels with three bytes per pixel. -/
def frame_4x2 : camera_image_t :=
  { width := 4, height := 2, bytes_per_pixel := 3, image_size := 24, stamp := ⟨0, 0⟩,
    image := List.replicate 24 0, is_new := 0 }

/-- The calls a function appended to the trace of the state `s` it was run on. -/
def new_calls (s r : UsbCam) : List Call := r.trace.drop s.trace.length

/-- Lexicographic order on kernel timestamps (seconds, then microseconds). -/
def timeval_le (a b : timeval) : Bool :=
  decide (a.tv_sec < b.tv_sec ∨ (a.tv_sec = b.tv_sec ∧ a.tv_usec ≤ b.tv_usec))

/-- Lexicographic order on image stamps (seconds, then nanoseconds). -/
def timespec_le (a b : timespec) : Bool :=
  decide (a.tv_sec < b.tv_sec ∨ (a.tv_sec = b.tv_sec ∧ a.tv_nsec ≤ b.tv_nsec))

/-- The stamp of the output frame of a session. -/
def image_stamp (s : UsbCam) : Option timespec := s.image_.map (fun img => img.stamp)

/-- The session on entry to `init_device` when `start` is called on a fresh
object with the I/O method `io` and `PIXEL_FORMAT_YUYV`: the device is open. -/
def opened (io : io_method) : UsbCam :=
  (open_device two_buffer_device
    { UsbCam.new 7 with
      camera_dev_ := "/dev/video0", io_ := io, pixelformat_ := V4L2_PIX_FMT_YUYV }).2

/-- The session at line 972 of `grab_image`, after the readiness wait and the
reading of the clock, for a session whose frame `img` is allocated. -/
def after_wait (k : Kernel) (s : UsbCam) (img : camera_image_t) : UsbCam :=
  { s with
    trace := s.trace ++ [Call.select s.fd_, Call.timespec_get],
    image_ := some { img with stamp := k.timespec_get } }

/-- A device on which every call succeeds except the query of the stream
parameters. -/
def no_stream_params_device : Kernel := { VIDIOC_REQBUFS := some 2, VIDIOC_G_PARM := none }

/-- A machine on which `v4l2-ctl` runs and reports an error on its output. -/
def v4l2_ctl_complains : Kernel := { popen := fun _ => some "unknown control name" }

/-- A machine on which `v4l2-ctl` cannot be run. -/
def v4l2_ctl_missing : Kernel := { popen := fun _ => none }

/-- The values of the reference arguments of `get_image` before a call: an
empty encoding and an empty vector. -/
def no_image : image_out :=
  { stamp := ⟨0, 0⟩, encoding := "", height := 0, width := 0, step := 0, data := [] }

/-- A device that captures video and supports neither `read()` nor streaming. -/
def capture_only_device : Kernel := { VIDIOC_QUERYCAP := some V4L2_CAP_VIDEO_CAPTURE }

/-- The state `r` has the kernel pixel format and the monochrome flag of the state `s`. -/
def same_format (s r : UsbCam) : Prop :=
  r.pixelformat_ = s.pixelformat_ ∧ r.monochrome_ = s.monochrome_

/-- A camera that reports frames of six bytes, two pixels wide and three
high, with no line size, writes the index of each byte into the buffer and
stamps the frame at 5 s 7 ns. -/
def six_byte_camera : NodeCamera :=
  { get_image_size := 6, get_image_width := 2, get_image_height := 3, ros := "mono8",
    get_image_step := 0, get_image := fun _ i => i, get_image_timestamp := ⟨5, 7⟩ }

/-- An image message as the constructor of the node leaves it: all fields
zero or empty. -/
def empty_message : Image :=
  { stamp_sec := 0, stamp_nanosec := 0, frame_id := "", height := 0, width := 0,
    encoding := "", is_bigendian := 0, step := 0, data := [] }

/-- A device that rejects stream-on and stream-off. -/
def stream_failing_device : Kernel := { VIDIOC_STREAMON := false, VIDIOC_STREAMOFF := false }

/-- The three capability checks of `init_device`, lines 621-652, all pass for
an I/O method and a capability word. -/
def capability_checks_pass (io : io_method) (capabilities : Nat) : Prop :=
  capabilities &&& V4L2_CAP_VIDEO_CAPTURE ≠ 0 ∧
  (io = io_method.IO_METHOD_READ → capabilities &&& V4L2_CAP_READWRITE ≠ 0) ∧
  (io = io_method.IO_METHOD_MMAP ∨ io = io_method.IO_METHOD_USERPTR →
    capabilities &&& V4L2_CAP_STREAMING ≠ 0)

/-- The session at line 731 of `init_device`, on entry to the allocator
dispatch: the state on entry to `init_device` with the calls of the
negotiation appended to the trace. -/
def before_allocation (k : Kernel) (s : UsbCam) (image_width image_height : Nat) : UsbCam :=
  { s with trace := s.trace ++ [Call.VIDIOC_QUERYCAP, Call.VIDIOC_CROPCAP] ++
      (if k.VIDIOC_CROPCAP = true then [Call.VIDIOC_S_CROP] else []) ++
      [Call.VIDIOC_S_FMT image_width image_height, Call.VIDIOC_G_PARM, Call.VIDIOC_S_PARM] }

/-- The value of `fmt.fmt.pix.sizeimage` after lines 693-702 of `init_device`,
for the format the driver reported. -/
def floored_sizeimage (fmt : v4l2_pix_format) : Nat :=
  let min1 := u32 (fmt.width * 2)
  let bytesperline := if fmt.bytesperline < min1 then min1 else fmt.bytesperline
  let min2 := u32 (bytesperline * fmt.height)
  if fmt.sizeimage < min2 then min2 else fmt.sizeimage

/-- The allocator dispatch of `init_device`, lines 731-746, with the results of
the allocators discarded. -/
def allocate (k : Kernel) (s : UsbCam) (sizeimage : Nat) : UsbCam :=
  match s.io_ with
  | io_method.IO_METHOD_READ => (init_read k s sizeimage).2
  | io_method.IO_METHOD_MMAP => (init_mmap k s).2
  | io_method.IO_METHOD_USERPTR => (init_userp k s sizeimage).2
  | io_method.IO_METHOD_UNKNOWN => s

open io_method pixel_format

/-! ## Dequeue, convert, requeue -/

/-- What `round_div` computes on the sub-second range: `1` from half a second on. -/
theorem round_div_usec (u : Int) (h0 : 0 ≤ u) (h1 : u < 1000000) :
    round_div u 1000000 = if 500000 ≤ u then 1 else 0 := by
  unfold round_div
  split_ifs <;> omega

/-- A failing `read_frame` on a streaming session that dequeued a buffer which
the kernel would take back has issued the dequeue and nothing else: the
failure is that of the conversion, and the function returns at lines 267-269
(or 318-320) before the requeue. -/
theorem read_frame_false_trace (cv : Conversions) (k : Kernel) (s r : UsbCam) (buf : v4l2_buffer)
    (hio : s.io_ = IO_METHOD_MMAP ∨ s.io_ = IO_METHOD_USERPTR)
    (hdq : k.VIDIOC_DQBUF = some buf) (hq : k.VIDIOC_QBUF buf.index = true)
    (hr : read_frame cv k s = some (false, r)) :
    r.trace = s.trace ++ [Call.VIDIOC_DQBUF] := by
  rcases hio with hio | hio <;>
  · simp only [read_frame, hio, hdq] at hr
    repeat' split at hr
    all_goals first
      | (have hc : k.VIDIOC_QBUF buf.index = false := by assumption
         simp [hq] at hc)
      | (simp only [Option.some.injEq, Prod.mk.injEq, true_and] at hr
         subst hr
         simp [UsbCam.call])
      | simp_all

/-- C1 (the code departs from the claim).  On a memory-mapped session and on a
user-pointer session, each started with `PIXEL_FORMAT_MJPEG` on a device with
every call succeeding, `read_frame` dequeues a buffer, the decoding of the
frame fails, and `read_frame` returns `false` having issued the dequeue only:
no `VIDIOC_QBUF` follows, so the dequeued buffer is not back in the kernel
queue.  When the decoding succeeds the same call issues the dequeue and the
requeue. -/
theorem read_frame_conversion_failure_no_requeue :
    (read_frame conv_fail (dequeue_device IO_METHOD_MMAP 0 100 0)
        (started IO_METHOD_MMAP PIXEL_FORMAT_MJPEG)).map
      (fun r => (r.1, new_calls (started IO_METHOD_MMAP PIXEL_FORMAT_MJPEG) r.2))
      = some (false, [Call.VIDIOC_DQBUF]) ∧
    (read_frame conv_fail (dequeue_device IO_METHOD_USERPTR 1 100 0)
        (started IO_METHOD_USERPTR PIXEL_FORMAT_MJPEG)).map
      (fun r => (r.1, new_calls (started IO_METHOD_USERPTR PIXEL_FORMAT_MJPEG) r.2))
      = some (false, [Call.VIDIOC_DQBUF]) ∧
    (read_frame conv_ok (dequeue_device IO_METHOD_MMAP 0 100 0)
        (started IO_METHOD_MMAP PIXEL_FORMAT_MJPEG)).map
      (fun r => (r.1, new_calls (started IO_METHOD_MMAP PIXEL_FORMAT_MJPEG) r.2))
      = some (true, [Call.VIDIOC_DQBUF, Call.VIDIOC_QBUF 0]) := by
  refine ⟨by decide, by decide, by decide⟩

/-! ## Time stamps -/

/-- The stamp a successful `read_frame` leaves on the frame, for both streaming
methods and a sub-second part in range: the seconds are the kernel seconds,
plus one from half a second on (the `round` of lines 259-260 and 302-303),
plus the epoch shift; the nanoseconds are the microseconds times `1000` on
the memory-mapped path (line 263) and the microseconds divided by `1000` on
the user-pointer path (line 306). -/
theorem read_frame_stamp (cv : Conversions) (k : Kernel) (s r : UsbCam) (buf : v4l2_buffer)
    (hio : s.io_ = IO_METHOD_MMAP ∨ s.io_ = IO_METHOD_USERPTR)
    (hdq : k.VIDIOC_DQBUF = some buf)
    (h0 : 0 ≤ buf.timestamp.tv_usec) (h1 : buf.timestamp.tv_usec < 1000000)
    (hr : read_frame cv k s = some (true, r)) :
    image_stamp r = some
      { tv_sec := buf.timestamp.tv_sec + (if 500000 ≤ buf.timestamp.tv_usec then 1 else 0)
          + s.epoch_time_shift_,
        tv_nsec := if s.io_ = IO_METHOD_MMAP then buf.timestamp.tv_usec * 1000
          else buf.timestamp.tv_usec / 1000 } ∧
    r.epoch_time_shift_ = s.epoch_time_shift_ ∧ r.io_ = s.io_ := by
  have hround := round_div_usec buf.timestamp.tv_usec h0 h1
  have htrunc : trunc_div buf.timestamp.tv_usec 1000 = buf.timestamp.tv_usec / 1000 := by
    simp [trunc_div, h0]
  rcases hio with hio | hio <;>
  · simp only [read_frame, hio, hdq] at hr
    repeat' split at hr
    all_goals first
      | (simp only [Option.some.injEq, Prod.mk.injEq, true_and] at hr
         subst hr
         simp [UsbCam.call, image_stamp, hround, htrunc, hio])
      | simp_all

/-- C2 (the code departs from the claim).  The kernel stamps a buffer
`100 s 600000 µs` and the epoch shift is `7`.  On the memory-mapped path a
successful `read_frame` stamps the frame `108 s 600000000 ns`: one second more
than `100 + 7`.  On the user-pointer path it stamps the frame `108 s 600 ns`:
one second more, and `600000 / 1000` nanoseconds instead of `600000 * 1000`.
With `400000 µs` the user-pointer path gives `107 s 400 ns`. -/
theorem read_frame_stamp_off :
    (read_frame conv_ok (dequeue_device IO_METHOD_MMAP 0 100 600000)
        (started IO_METHOD_MMAP PIXEL_FORMAT_YUYV)).map (fun r => (r.1, image_stamp r.2))
      = some (true, some ⟨108, 600000000⟩) ∧
    (read_frame conv_ok (dequeue_device IO_METHOD_USERPTR 0 100 600000)
        (started IO_METHOD_USERPTR PIXEL_FORMAT_YUYV)).map (fun r => (r.1, image_stamp r.2))
      = some (true, some ⟨108, 600⟩) ∧
    (read_frame conv_ok (dequeue_device IO_METHOD_USERPTR 0 100 400000)
        (started IO_METHOD_USERPTR PIXEL_FORMAT_YUYV)).map (fun r => (r.1, image_stamp r.2))
      = some (true, some ⟨107, 400⟩) ∧
    (started IO_METHOD_MMAP PIXEL_FORMAT_YUYV).epoch_time_shift_ = 7 ∧
    (started IO_METHOD_USERPTR PIXEL_FORMAT_YUYV).epoch_time_shift_ = 7 := by
  decide

/-- C3 (the code departs from the claim).  Two consecutive successful
memory-mapped `read_frame` calls whose kernel stamps are `10 s 600000 µs` and
then `11 s 100000 µs`, in increasing order, stamp the frame
`18 s 600000000 ns` and then `18 s 100000000 ns` (epoch shift `7`): the second
image stamp is earlier than the first. -/
theorem read_frame_stamps_decrease :
    ((read_frame conv_ok (dequeue_device IO_METHOD_MMAP 0 10 600000)
        (started IO_METHOD_MMAP PIXEL_FORMAT_YUYV)).bind (fun r1 =>
      (read_frame conv_ok (dequeue_device IO_METHOD_MMAP 1 11 100000) r1.2).map (fun r2 =>
        (r1.1, image_stamp r1.2, r2.1, image_stamp r2.2))))
      = some (true, some ⟨18, 600000000⟩, true, some ⟨18, 100000000⟩) ∧
    timeval_le ⟨10, 600000⟩ ⟨11, 100000⟩ = true ∧
    timespec_le ⟨18, 600000000⟩ ⟨18, 100000000⟩ = false := by
  decide

/-- Two consecutive successful memory-mapped `read_frame` calls whose kernel
stamps are in lexicographic order give image stamps in lexicographic order
exactly when the kernel stamps do not step from the upper half of one second
into the lower half of the next; the seconds of the image stamps are in order
in every case. -/
theorem read_frame_stamps_order (cv1 cv2 : Conversions) (k1 k2 : Kernel) (s r1 r2 : UsbCam)
    (b1 b2 : v4l2_buffer) (t1 t2 : timespec) (hio : s.io_ = IO_METHOD_MMAP)
    (hd1 : k1.VIDIOC_DQBUF = some b1) (hd2 : k2.VIDIOC_DQBUF = some b2)
    (h1 : 0 ≤ b1.timestamp.tv_usec ∧ b1.timestamp.tv_usec < 1000000)
    (h2 : 0 ≤ b2.timestamp.tv_usec ∧ b2.timestamp.tv_usec < 1000000)
    (hle : timeval_le b1.timestamp b2.timestamp = true)
    (hr1 : read_frame cv1 k1 s = some (true, r1)) (hr2 : read_frame cv2 k2 r1 = some (true, r2))
    (ht1 : image_stamp r1 = some t1) (ht2 : image_stamp r2 = some t2) :
    t1.tv_sec ≤ t2.tv_sec ∧
    (timespec_le t1 t2 = true ↔
      ¬ (b2.timestamp.tv_sec = b1.timestamp.tv_sec + 1 ∧ 500000 ≤ b1.timestamp.tv_usec ∧
          b2.timestamp.tv_usec < 500000)) := by
  obtain ⟨e1, hs1, hio1⟩ := read_frame_stamp cv1 k1 s r1 b1 (Or.inl hio) hd1 h1.1 h1.2 hr1
  obtain ⟨e2, _, _⟩ := read_frame_stamp cv2 k2 r1 r2 b2 (Or.inl (hio1.trans hio)) hd2 h2.1 h2.2 hr2
  rw [ht1] at e1
  rw [ht2] at e2
  simp only [Option.some.injEq, hio1, hio, if_true] at e1 e2
  subst e1 e2
  simp only [timeval_le, decide_eq_true_eq] at hle
  simp only [timespec_le, decide_eq_true_eq, hs1]
  constructor
  · split_ifs <;> omega
  · split_ifs <;> omega

/-! ## The output frame allocated by `start` -/

/-- The frame a successful `start_device` allocates: its sizes are the two
arguments of the call, it has three bytes per pixel, and its size is the
product of the three as an `unsigned int`. -/
theorem start_device_image (k : Kernel) (s r : UsbCam) (w h : Nat) (fr : Int)
    (hs : start_device k s w h fr = (true, r)) :
    r.image_ = some
      { width := w, height := h, bytes_per_pixel := 3, image_size := u32 (w * h * 3),
        stamp := ⟨0, 0⟩, image := List.replicate (u32 (w * h * 3) * sizeof_char_ptr) 0,
        is_new := 0 } := by
  unfold start_device at hs
  simp only at hs
  split_ifs at hs
  all_goals first
    | (simp only [Prod.mk.injEq, true_and] at hs
       subst hs
       rfl)
    | simp at hs

/-- A successful `start` is a successful `start_device` on some state. -/
theorem start_is_start_device (k : Kernel) (s r : UsbCam) (dev : String) (io : io_method)
    (pf : pixel_format) (cf : color_format) (w h : Nat) (fr : Int)
    (hs : start k s dev io pf cf w h fr = (true, r)) :
    ∃ s0, start_device k s0 w h fr = (true, r) := by
  cases pf <;> simp only [start] at hs
  all_goals first
    | exact ⟨_, hs⟩
    | simp at hs

/-- C4 (the claim as amended).  After every successful `start`, for every pixel
format, monochrome or not, the output frame has `bytes_per_pixel = 3` and
`image_size = width * height * bytes_per_pixel` in `unsigned int` arithmetic,
which is the exact product when that is below `2^32`. -/
theorem start_image_size (k : Kernel) (s r : UsbCam) (dev : String) (io : io_method)
    (pf : pixel_format) (cf : color_format) (w h : Nat) (fr : Int)
    (hs : start k s dev io pf cf w h fr = (true, r)) :
    ∃ img, r.image_ = some img ∧ img.bytes_per_pixel = 3 ∧
      img.image_size = (img.width * img.height * img.bytes_per_pixel) % 2 ^ 32 ∧
      (img.width * img.height * img.bytes_per_pixel < 2 ^ 32 →
        img.image_size = img.width * img.height * img.bytes_per_pixel) := by
  obtain ⟨s0, h0⟩ := start_is_start_device k s r dev io pf cf w h fr hs
  refine ⟨_, start_device_image k s0 r w h fr h0, rfl, rfl, ?_⟩
  intro hlt
  exact Nat.mod_eq_of_lt hlt

/-- C4 (witness).  The amended statement at a monochrome session: `start` with
`PIXEL_FORMAT_GREY` and sizes `4` by `2` on a device where every call succeeds. -/
theorem start_image_size_witness :
    (start two_buffer_device (UsbCam.new 7) "/dev/video0" IO_METHOD_MMAP PIXEL_FORMAT_GREY
        color_format.COLOR_FORMAT_YUV420P 4 2 10).1 = true ∧
    ∃ img, (started IO_METHOD_MMAP PIXEL_FORMAT_GREY).image_ = some img ∧ img.bytes_per_pixel = 3 ∧
      img.image_size = (img.width * img.height * img.bytes_per_pixel) % 2 ^ 32 ∧
      (img.width * img.height * img.bytes_per_pixel < 2 ^ 32 →
        img.image_size = img.width * img.height * img.bytes_per_pixel) :=
  ⟨by decide, start_image_size two_buffer_device (UsbCam.new 7) _ "/dev/video0" IO_METHOD_MMAP
    PIXEL_FORMAT_GREY color_format.COLOR_FORMAT_YUV420P 4 2 10 (Prod.ext (by decide) rfl)⟩

/-- C4 (counterexample).  `start` with the monochrome format `PIXEL_FORMAT_GREY`
and sizes `4` by `2` succeeds and sets `monochrome_`, and the frame has three
bytes per pixel and a size of `24` bytes, not one byte per pixel and `8`. -/
theorem start_mono_three_bytes_per_pixel :
    (start two_buffer_device (UsbCam.new 7) "/dev/video0" IO_METHOD_MMAP PIXEL_FORMAT_GREY
        color_format.COLOR_FORMAT_YUV420P 4 2 10).1 = true ∧
    (started IO_METHOD_MMAP PIXEL_FORMAT_GREY).monochrome_ = true ∧
    (started IO_METHOD_MMAP PIXEL_FORMAT_GREY).image_.map
        (fun img => (img.width, img.height, img.bytes_per_pixel, img.image_size))
      = some (4, 2, 3, 24) ∧
    (started IO_METHOD_MMAP PIXEL_FORMAT_YUVMONO10).monochrome_ = true ∧
    (started IO_METHOD_MMAP PIXEL_FORMAT_YUVMONO10).image_.map
        (fun img => (img.width, img.height, img.bytes_per_pixel, img.image_size))
      = some (4, 2, 3, 24) := by
  decide

/-- The sizes of the frame after every successful `start` are the sizes the
caller asked for, whatever the device answered to the format negotiation. -/
theorem start_image_dimensions (k : Kernel) (s r : UsbCam) (dev : String) (io : io_method)
    (pf : pixel_format) (cf : color_format) (w h : Nat) (fr : Int)
    (hs : start k s dev io pf cf w h fr = (true, r)) :
    r.image_.map (fun img => (img.width, img.height)) = some (w, h) := by
  obtain ⟨s0, h0⟩ := start_is_start_device k s r dev io pf cf w h fr hs
  rw [start_device_image k s0 r w h fr h0]
  rfl

/-- C5 (the code departs from the claim).  `start` is asked for `640` by `480`
on a device that answers the format negotiation with `320` by `240`.  It
succeeds, and the frame of the session is `640` by `480`: the sizes reported
by the device, which `init_device` assigns to its by-value parameters at lines
704-705, do not reach `start`. -/
theorem start_ignores_negotiated_size :
    (start resizing_device (UsbCam.new 7) "/dev/video0" IO_METHOD_MMAP PIXEL_FORMAT_YUYV
        color_format.COLOR_FORMAT_YUV420P 640 480 10).1 = true ∧
    (resizing_device.VIDIOC_S_FMT ⟨640, 480, V4L2_PIX_FMT_YUYV, 0, 0⟩).map
        (fun f => (f.width, f.height)) = some (320, 240) ∧
    (start resizing_device (UsbCam.new 7) "/dev/video0" IO_METHOD_MMAP PIXEL_FORMAT_YUYV
        color_format.COLOR_FORMAT_YUV420P 640 480 10).2.image_.map
        (fun img => (img.width, img.height)) = some (640, 480) := by
  decide

/-! ## Failure of the buffer allocators -/

/-- C6 (the code departs from the claim).  On a device that grants one buffer
`init_mmap` returns `false`, on a device that rejects the buffer request
`init_userp` returns `false`, and when the buffer array cannot be allocated
`init_read` returns `false`; in each case `start` with that I/O method returns
`true` with the session marked as capturing, and for the two streaming
methods stream-on is issued right after the failed buffer request. -/
theorem start_survives_allocation_failure :
    (init_mmap one_buffer_device (UsbCam.new 7)).1 = false ∧
    (init_userp no_buffer_device (UsbCam.new 7) 16).1 = false ∧
    (init_read no_memory_device (UsbCam.new 7) 16).1 = false ∧
    start_outcome
      (start one_buffer_device (UsbCam.new 7) "/dev/video0" IO_METHOD_MMAP PIXEL_FORMAT_YUYV
        color_format.COLOR_FORMAT_YUV420P 4 2 10)
      = (true, true, 0, 0,
          [Call.stat, Call.sys_open, Call.VIDIOC_QUERYCAP, Call.VIDIOC_CROPCAP, Call.VIDIOC_S_CROP,
           Call.VIDIOC_S_FMT 4 2, Call.VIDIOC_G_PARM, Call.VIDIOC_S_PARM, Call.VIDIOC_REQBUFS,
           Call.VIDIOC_STREAMON]) ∧
    start_outcome
      (start no_buffer_device (UsbCam.new 7) "/dev/video0" IO_METHOD_USERPTR PIXEL_FORMAT_YUYV
        color_format.COLOR_FORMAT_YUV420P 4 2 10)
      = (true, true, 0, 0,
          [Call.stat, Call.sys_open, Call.VIDIOC_QUERYCAP, Call.VIDIOC_CROPCAP, Call.VIDIOC_S_CROP,
           Call.VIDIOC_S_FMT 4 2, Call.VIDIOC_G_PARM, Call.VIDIOC_S_PARM, Call.VIDIOC_REQBUFS,
           Call.VIDIOC_STREAMON]) ∧
    start_outcome
      (start no_memory_device (UsbCam.new 7) "/dev/video0" IO_METHOD_READ PIXEL_FORMAT_YUYV
        color_format.COLOR_FORMAT_YUV420P 4 2 10)
      = (true, true, 0, 0,
          [Call.stat, Call.sys_open, Call.VIDIOC_QUERYCAP, Call.VIDIOC_CROPCAP, Call.VIDIOC_S_CROP,
           Call.VIDIOC_S_FMT 4 2, Call.VIDIOC_G_PARM, Call.VIDIOC_S_PARM, Call.calloc 1]) := by
  refine ⟨by decide, by decide, by decide, by decide, by decide, by decide⟩

/-! ## Teardown -/

/-- What `close_device` does for every outcome of `close`: it returns the outcome, and the
stored descriptor becomes `-1` when `close` succeeds and keeps its value when `close` fails. -/
theorem close_device_result (k : Kernel) (s : UsbCam) :
    (close_device k s).1 = k.close ∧
    (close_device k s).2.fd_ = (if k.close = true then -1 else s.fd_) ∧
    (close_device k s).2.trace = s.trace ++ [Call.close s.fd_] := by
  unfold close_device
  cases hc : k.close <;> simp [UsbCam.call]

/-- C8 (the code departs from the claim).  On a started session, whose
descriptor is `3`, `close_device` with a failing `close` returns `false` and
leaves `fd_` at `3`, not `-1`; a second `close_device` closes descriptor `3`
again. -/
theorem close_device_failure_keeps_descriptor :
    (started IO_METHOD_MMAP PIXEL_FORMAT_YUYV).fd_ = 3 ∧
    (close_device close_failing_device (started IO_METHOD_MMAP PIXEL_FORMAT_YUYV)).1 = false ∧
    (close_device close_failing_device (started IO_METHOD_MMAP PIXEL_FORMAT_YUYV)).2.fd_ = 3 ∧
    new_calls (started IO_METHOD_MMAP PIXEL_FORMAT_YUYV)
      (close_device two_buffer_device
        (close_device close_failing_device (started IO_METHOD_MMAP PIXEL_FORMAT_YUYV)).2).2
      = [Call.close 3, Call.close 3] := by
  decide

/-- C7 (the code departs from the claim).  A session is started on a device
where every call succeeds, and `shutdown` is called twice, the `close` of the
second call failing as descriptor `-1` is not open.  For the
memory-mapped session the second call unmaps the two regions the first call
unmapped and frees the buffer array the first call freed; for the read session
it frees the buffer and the array again; for the user-pointer session it frees
the four buffers and the array again.  Neither call clears `buffers_` or
`n_buffers_`. -/
theorem shutdown_twice_releases_twice :
    ((shutdown two_buffer_device (started IO_METHOD_MMAP PIXEL_FORMAT_YUYV)).bind (fun r1 =>
      (shutdown close_failing_device r1.2).map (fun r2 =>
        (new_calls (started IO_METHOD_MMAP PIXEL_FORMAT_YUYV) r1.2, new_calls r1.2 r2.2,
          r2.2.buffers_, r2.2.n_buffers_))))
      = some
        ([Call.VIDIOC_STREAMOFF, Call.munmap 0x10000 4096, Call.munmap 0x11000 4096,
            Call.free 0x1000, Call.close 3],
         [Call.munmap 0x10000 4096, Call.munmap 0x11000 4096, Call.free 0x1000, Call.close (-1)],
         0x1000, 2) ∧
    ((shutdown two_buffer_device (started IO_METHOD_READ PIXEL_FORMAT_YUYV)).bind (fun r1 =>
      (shutdown close_failing_device r1.2).map (fun r2 =>
        (new_calls (started IO_METHOD_READ PIXEL_FORMAT_YUYV) r1.2, new_calls r1.2 r2.2))))
      = some
        ([Call.free 0x2000, Call.free 0x1000, Call.close 3],
         [Call.free 0x2000, Call.free 0x1000, Call.close (-1)]) ∧
    ((shutdown two_buffer_device (started IO_METHOD_USERPTR PIXEL_FORMAT_YUYV)).bind (fun r1 =>
      (shutdown close_failing_device r1.2).map (fun r2 =>
        (new_calls (started IO_METHOD_USERPTR PIXEL_FORMAT_YUYV) r1.2, new_calls r1.2 r2.2))))
      = some
        ([Call.VIDIOC_STREAMOFF, Call.free 0x20000, Call.free 0x30000, Call.free 0x40000,
            Call.free 0x50000, Call.free 0x1000, Call.close 3],
         [Call.free 0x20000, Call.free 0x30000, Call.free 0x40000, Call.free 0x50000,
            Call.free 0x1000, Call.close (-1)]) := by
  decide

/-! ## Grabbing on a session that is not capturing -/

/-- C9 (the claim as amended).  `grab_image` does not consult `is_capturing_`:
on every session whose frame is allocated, capturing or not, it first performs
the readiness wait and reads the clock, and when the wait fails or times out
it returns `false` having issued no other call, so without dequeuing or
reading any buffer. -/
theorem grab_image_waits_first (cv : Conversions) (k : Kernel) (s : UsbCam) (img : camera_image_t)
    (himg : s.image_ = some img) (hsel : k.select = -1 ∨ k.select = 0) :
    ∃ r, grab_image cv k s = some (false, r) ∧
      r.trace = s.trace ++ [Call.select s.fd_, Call.timespec_get] ∧
      r.is_capturing_ = s.is_capturing_ := by
  rcases hsel with hsel | hsel <;>
  · simp [grab_image, UsbCam.call, himg, hsel]

/-- C9 (witness).  The amended statement on the stopped session with a wait that times out. -/
theorem grab_image_waits_first_witness :
    stopped.is_capturing_ = false ∧
    ∃ r, grab_image conv_ok timeout_device stopped = some (false, r) ∧
      r.trace = stopped.trace ++ [Call.select stopped.fd_, Call.timespec_get] ∧
      r.is_capturing_ = stopped.is_capturing_ :=
  ⟨by decide, grab_image_waits_first conv_ok timeout_device stopped _ rfl (Or.inr (by decide))⟩

/-- C9 (counterexample).  On a session that is not capturing, `grab_image`
performs the readiness wait on descriptor `3`: when the wait times out it
returns `false` after the wait, and when the wait reports the descriptor ready
it goes on to the dequeue, which fails, and returns `false`. -/
theorem grab_image_not_capturing_still_waits :
    is_capturing stopped = false ∧
    (grab_image conv_ok timeout_device stopped).map (fun r => (r.1, new_calls stopped r.2))
      = some (false, [Call.select 3, Call.timespec_get]) ∧
    two_buffer_device.select = 1 ∧ two_buffer_device.VIDIOC_DQBUF = none ∧
    (grab_image conv_ok two_buffer_device stopped).map (fun r => (r.1, new_calls stopped r.2))
      = some (false, [Call.select 3, Call.timespec_get, Call.VIDIOC_DQBUF]) := by
  refine ⟨by decide, by decide, by decide, by decide, by decide⟩

/-! ## Short frames -/

/-- C10 (the claim as amended).  For every uncompressed source format and every
geometry `process_image` does not look at `len`: its result, the `bool` and
the frame, is the same for every two values of `len`.  Only the converter of
the compressed formats is handed `len`. -/
theorem process_image_ignores_len (cv : Conversions) (s : UsbCam) (src : List Nat)
    (len1 len2 : Int) (dest : camera_image_t)
    (hfmt : s.pixelformat_ = V4L2_PIX_FMT_YUYV ∨ s.pixelformat_ = V4L2_PIX_FMT_UYVY ∨
      s.pixelformat_ = V4L2_PIX_FMT_RGB24 ∨ s.pixelformat_ = V4L2_PIX_FMT_GREY ∨
      s.pixelformat_ = V4L2_PIX_FMT_YUV420) :
    process_image cv s src len1 dest = process_image cv s src len2 dest := by
  rcases hfmt with h | h | h | h | h <;>
  · simp [process_image, h, V4L2_PIX_FMT_YUYV, V4L2_PIX_FMT_UYVY, V4L2_PIX_FMT_MJPEG,
      V4L2_PIX_FMT_H264, V4L2_PIX_FMT_RGB24, V4L2_PIX_FMT_GREY, V4L2_PIX_FMT_YUV420]

/-- C10 (witness).  The amended statement on a YUYV session, for an empty frame
and a frame of the `16` bytes that `4` by `2` pixels require. -/
theorem process_image_ignores_len_witness :
    (started IO_METHOD_MMAP PIXEL_FORMAT_YUYV).pixelformat_ = V4L2_PIX_FMT_YUYV ∧
    process_image conv_ok (started IO_METHOD_MMAP PIXEL_FORMAT_YUYV) [] 0 frame_4x2
      = process_image conv_ok (started IO_METHOD_MMAP PIXEL_FORMAT_YUYV) [] 16 frame_4x2 :=
  ⟨by decide, process_image_ignores_len conv_ok (started IO_METHOD_MMAP PIXEL_FORMAT_YUYV) [] 0 16
    frame_4x2 (Or.inl (by decide))⟩

/-- C10 (counterexample).  With converters that accept a frame, `process_image`
accepts a frame of length `0` for a geometry of `4` by `2` pixels in each of
the five uncompressed formats, which require `16`, `16`, `24`, `8` and `12`
source bytes. -/
theorem process_image_accepts_short_frame :
    (process_image conv_ok (started IO_METHOD_MMAP PIXEL_FORMAT_YUYV) [] 0 frame_4x2).1 = true ∧
    (process_image conv_ok (started IO_METHOD_MMAP PIXEL_FORMAT_UYVY) [] 0 frame_4x2).1 = true ∧
    (process_image conv_ok (started IO_METHOD_MMAP PIXEL_FORMAT_RGB24) [] 0 frame_4x2).1 = true ∧
    (process_image conv_ok (started IO_METHOD_MMAP PIXEL_FORMAT_GREY) [] 0 frame_4x2).1 = true ∧
    (process_image conv_ok (started IO_METHOD_MMAP PIXEL_FORMAT_YU12) [] 0 frame_4x2).1 = true ∧
    (0 : Int) < 2 * 4 * 2 ∧ (0 : Int) < 3 * 4 * 2 ∧ (0 : Int) < 4 * 2 ∧ (0 : Int) < 3 * 4 * 2 / 2 := by
  refine ⟨by decide, by decide, by decide, by decide, by decide, by decide, by decide, by decide,
    by decide⟩

/-! ## Negotiation and buffer sizing in `init_device` -/

/-- When the capability query, the capability checks, the format negotiation
and the stream-parameter query succeed, `init_device` returns `true` and its
final state is that of the allocator of the I/O method, run on the session
with the negotiation calls traced and handed the floored image size. -/
theorem init_device_reaches_allocation (k : Kernel) (s : UsbCam) (w h : Nat) (fr : Int)
    (caps g : Nat) (fmt : v4l2_pix_format)
    (hq : k.VIDIOC_QUERYCAP = some caps) (hc : capability_checks_pass s.io_ caps)
    (hfmt : k.VIDIOC_S_FMT ⟨w, h, s.pixelformat_, 0, 0⟩ = some fmt)
    (hg : k.VIDIOC_G_PARM = some g) :
    init_device k s w h fr
      = (true, allocate k (before_allocation k s w h) (floored_sizeimage fmt)) := by
  obtain ⟨h1, h2, h3⟩ := hc
  cases hio : s.io_ <;> cases hcrop : k.VIDIOC_CROPCAP <;>
    simp_all [init_device, UsbCam.call, allocate, before_allocation, floored_sizeimage]

/-- The floored image size without 32-bit overflow. -/
theorem floored_sizeimage_eq_max (fmt : v4l2_pix_format) (h1 : fmt.width * 2 < 2 ^ 32)
    (h2 : max fmt.bytesperline (2 * fmt.width) * fmt.height < 2 ^ 32) :
    floored_sizeimage fmt
      = max fmt.sizeimage (max fmt.bytesperline (2 * fmt.width) * fmt.height) := by
  have e1 : u32 (fmt.width * 2) = 2 * fmt.width := by
    unfold u32
    rw [Nat.mod_eq_of_lt h1, Nat.mul_comm]
  have e2 : (if fmt.bytesperline < 2 * fmt.width then 2 * fmt.width else fmt.bytesperline)
      = max fmt.bytesperline (2 * fmt.width) := by
    split_ifs <;> omega
  unfold floored_sizeimage
  simp only [e1, e2]
  have e3 : u32 (max fmt.bytesperline (2 * fmt.width) * fmt.height)
      = max fmt.bytesperline (2 * fmt.width) * fmt.height := Nat.mod_eq_of_lt h2
  rw [e3]
  split_ifs <;> omega

/-- C11.  When `init_device` reaches the allocator dispatch, and the floors
do not overflow 32 bits, the image size it hands to `init_read` (read method)
and to `init_userp` (user-pointer method) is
`max(sizeimage, max(bytesperline, 2 * width) * height)` of the format the
driver reported.  That size is at least the stride times the height, the
stride being at least `2 * width`, and it is the reported `sizeimage` when the
driver already satisfies both floors. -/
theorem init_device_allocation_size (k : Kernel) (s : UsbCam) (w h : Nat) (fr : Int)
    (caps g : Nat) (fmt : v4l2_pix_format)
    (hq : k.VIDIOC_QUERYCAP = some caps) (hc : capability_checks_pass s.io_ caps)
    (hfmt : k.VIDIOC_S_FMT ⟨w, h, s.pixelformat_, 0, 0⟩ = some fmt)
    (hg : k.VIDIOC_G_PARM = some g)
    (h1 : fmt.width * 2 < 2 ^ 32)
    (h2 : max fmt.bytesperline (2 * fmt.width) * fmt.height < 2 ^ 32) :
    (s.io_ = IO_METHOD_READ → init_device k s w h fr
      = (true, (init_read k (before_allocation k s w h)
          (max fmt.sizeimage (max fmt.bytesperline (2 * fmt.width) * fmt.height))).2)) ∧
    (s.io_ = IO_METHOD_USERPTR → init_device k s w h fr
      = (true, (init_userp k (before_allocation k s w h)
          (max fmt.sizeimage (max fmt.bytesperline (2 * fmt.width) * fmt.height))).2)) ∧
    max fmt.bytesperline (2 * fmt.width) * fmt.height
      ≤ max fmt.sizeimage (max fmt.bytesperline (2 * fmt.width) * fmt.height) ∧
    2 * fmt.width ≤ max fmt.bytesperline (2 * fmt.width) ∧
    (2 * fmt.width ≤ fmt.bytesperline → fmt.bytesperline * fmt.height ≤ fmt.sizeimage →
      max fmt.sizeimage (max fmt.bytesperline (2 * fmt.width) * fmt.height) = fmt.sizeimage) := by
  have hreach := init_device_reaches_allocation k s w h fr caps g fmt hq hc hfmt hg
  rw [floored_sizeimage_eq_max fmt h1 h2] at hreach
  refine ⟨?_, ?_, Nat.le_max_right _ _, Nat.le_max_right _ _, ?_⟩
  · intro hio
    rw [hreach]
    simp [allocate, before_allocation, hio]
  · intro hio
    rw [hreach]
    simp [allocate, before_allocation, hio]
  · intro hb hs
    rw [Nat.max_eq_left hb]
    exact Nat.max_eq_left hs

/-- C11 (witness).  On a read session the driver reports `4` by `2` with
`bytesperline = 0` and `sizeimage = 0`; `init_device` hands `init_read` the
size `max(0, max(0, 8) * 2) = 16`. -/
theorem init_device_allocation_size_witness :
    two_buffer_device.VIDIOC_S_FMT ⟨4, 2, (opened IO_METHOD_READ).pixelformat_, 0, 0⟩
      = some ⟨4, 2, V4L2_PIX_FMT_YUYV, 0, 0⟩ ∧
    init_device two_buffer_device (opened IO_METHOD_READ) 4 2 10
      = (true, (init_read two_buffer_device
          (before_allocation two_buffer_device (opened IO_METHOD_READ) 4 2) 16).2) :=
  ⟨rfl, (init_device_allocation_size two_buffer_device (opened IO_METHOD_READ) 4 2 10
    (V4L2_CAP_VIDEO_CAPTURE ||| V4L2_CAP_READWRITE ||| V4L2_CAP_STREAMING) 0x1000
    ⟨4, 2, V4L2_PIX_FMT_YUYV, 0, 0⟩ rfl
    ⟨by decide, fun _ => by decide, fun _ => by decide⟩ rfl rfl (by decide) (by decide)).1 rfl⟩

/-! ## Page rounding in `init_userp` -/

/-- Masking off the low `j` bits of a 32-bit value rounds it down to a multiple of `2^j`. -/
theorem and_page_mask (y j : Nat) (hj : j ≤ 32) (hy : y < 2 ^ 32) :
    y &&& (2 ^ 32 - 1 - (2 ^ j - 1)) = 2 ^ j * (y / 2 ^ j) := by
  have hm : 2 ^ 32 - 1 - (2 ^ j - 1) = 2 ^ 32 - ((2 ^ j - 1) + 1) := by omega
  rw [hm]
  apply Nat.eq_of_testBit_eq
  intro i
  have hlt : 2 ^ j - 1 < 2 ^ 32 := by
    have : 2 ^ j ≤ 2 ^ 32 := Nat.pow_le_pow_right (by decide) hj
    have : 0 < 2 ^ j := Nat.two_pow_pos j
    omega
  rw [Nat.testBit_and, Nat.testBit_two_pow_sub_succ hlt, Nat.testBit_two_pow_sub_one,
    Nat.testBit_mul_pow_two, ← Nat.shiftRight_eq_div_pow, Nat.testBit_shiftRight]
  by_cases h1 : i < j
  · simp [h1, Nat.not_le_of_lt h1]
  · have h2 : j ≤ i := Nat.le_of_not_lt h1
    have h3 : j + (i - j) = i := by omega
    rw [h3]
    by_cases h4 : i < 32
    · simp [h1, h2, h4]
    · have : y < 2 ^ i := lt_of_lt_of_le hy (Nat.pow_le_pow_right (by decide) (by omega))
      simp [Nat.testBit_lt_two_pow this]

/-- The value of the expression `(buffer_size + page_size - 1) & ~(page_size - 1)` of
line 562, computed on `unsigned int`, for a page size `2^j`. -/
theorem page_rounding_value (b j : Nat) (hb : b + 2 ^ j - 1 < 2 ^ 32) :
    u32 (b + u32 (2 ^ j) + (2 ^ 32 - 1)) &&& not32 (u32 (2 ^ j) + (2 ^ 32 - 1))
      = 2 ^ j * ((b + 2 ^ j - 1) / 2 ^ j) := by
  have hpos : 0 < 2 ^ j := Nat.two_pow_pos j
  have hj : j ≤ 32 := by
    by_contra hcon
    have : 2 ^ 33 ≤ 2 ^ j := Nat.pow_le_pow_right (by decide) (by omega)
    omega
  rcases Nat.lt_or_ge j 32 with hlt | hge
  · have hp : 2 ^ j < 2 ^ 32 := Nat.pow_lt_pow_right (by decide) hlt
    have e0 : u32 (2 ^ j) = 2 ^ j := Nat.mod_eq_of_lt hp
    have e1 : u32 (b + 2 ^ j + (2 ^ 32 - 1)) = b + 2 ^ j - 1 := by
      unfold u32
      omega
    have e2 : not32 (2 ^ j + (2 ^ 32 - 1)) = 2 ^ 32 - 1 - (2 ^ j - 1) := by
      unfold not32 u32
      omega
    rw [e0, e1, e2]
    exact and_page_mask _ j hj hb
  · have hj32 : j = 32 := by omega
    subst hj32
    have hb0 : b = 0 := by omega
    subst hb0
    decide

/-- Rounding up to a multiple of `p` by `p * ((b + p - 1) / p)` gives the least
multiple of `p` that is at least `b`. -/
theorem round_up_least (p b : Nat) (hp : 0 < p) :
    (p ∣ p * ((b + p - 1) / p) ∧ b ≤ p * ((b + p - 1) / p) ∧
      ∀ m, p ∣ m → b ≤ m → p * ((b + p - 1) / p) ≤ m) ∧
    p * ((b + p - 1) / p) < b + p ∧ (p ∣ b → p * ((b + p - 1) / p) = b) := by
  have h1 := Nat.div_add_mod (b + p - 1) p
  have h2 := Nat.mod_lt (b + p - 1) hp
  have hle : b ≤ p * ((b + p - 1) / p) := by omega
  have hmin : ∀ m, p ∣ m → b ≤ m → p * ((b + p - 1) / p) ≤ m := by
    intro m hm hbm
    obtain ⟨c, rfl⟩ := hm
    apply Nat.mul_le_mul_left
    apply Nat.le_of_lt_succ
    apply Nat.div_lt_of_lt_mul
    rw [Nat.mul_succ]
    omega
  refine ⟨⟨Dvd.intro _ rfl, hle, hmin⟩, by omega, ?_⟩
  intro hd
  exact Nat.le_antisymm (hmin b hd (Nat.le_refl b)) hle

/-- One iteration of the allocation loop of `init_userp`. -/
theorem memalign_all_step (k : Kernel) (p L r : Nat) (s : UsbCam) :
    memalign_all k p L (r + 1) s =
      if k.memalign (4 - (r + 1)) = 0 then
        (false, { s with
          n_buffers_ := 4 - (r + 1), trace := s.trace ++ [Call.memalign p L],
          buffers_data := s.buffers_data.set (4 - (r + 1)) ⟨k.memalign (4 - (r + 1)), L⟩ })
      else
        memalign_all k p L r { s with
          n_buffers_ := 4 - (r + 1), trace := s.trace ++ [Call.memalign p L],
          buffers_data := s.buffers_data.set (4 - (r + 1)) ⟨k.memalign (4 - (r + 1)), L⟩ } :=
  rfl

/-- A successful run of the whole allocation loop of `init_userp` on an array
of four buffers records four buffers, each with the address its `memalign`
returned and with the length handed to the loop. -/
theorem memalign_all_success (k : Kernel) (p L : Nat) (s r : UsbCam)
    (hlen : s.buffers_data.length = 4) (hs : memalign_all k p L 4 s = (true, r)) :
    r.n_buffers_ = 4 ∧
    r.buffers_data = (List.range 4).map (fun i => ({ start := k.memalign i, length := L } : buffer)) := by
  obtain ⟨b0, b1, b2, b3, hb⟩ : ∃ b0 b1 b2 b3, s.buffers_data = [b0, b1, b2, b3] := by
    match hd : s.buffers_data, hlen with
    | [b0, b1, b2, b3], _ => exact ⟨b0, b1, b2, b3, rfl⟩
  change memalign_all k p L (3 + 1) s = (true, r) at hs
  rw [memalign_all_step] at hs
  split_ifs at hs
  · simp at hs
  · change memalign_all k p L (2 + 1) _ = (true, r) at hs
    rw [memalign_all_step] at hs
    split_ifs at hs
    · simp at hs
    · change memalign_all k p L (1 + 1) _ = (true, r) at hs
      rw [memalign_all_step] at hs
      split_ifs at hs
      · simp at hs
      · change memalign_all k p L (0 + 1) _ = (true, r) at hs
        rw [memalign_all_step] at hs
        split_ifs at hs
        · simp at hs
        · simp only [memalign_all, Prod.mk.injEq, true_and] at hs
          subst hs
          simp [hb, List.range, List.range.loop]

/-- A successful `init_userp` records four buffers, each with the address its
`memalign` returned and with the rounded length of line 562. -/
theorem init_userp_success (k : Kernel) (s r : UsbCam) (b : Nat)
    (hs : init_userp k s b = (true, r)) :
    r.n_buffers_ = 4 ∧
    r.buffers_data = (List.range 4).map (fun i =>
      ({ start := k.memalign i,
         length := u32 (b + u32 k.getpagesize + (2 ^ 32 - 1))
           &&& not32 (u32 k.getpagesize + (2 ^ 32 - 1)) } : buffer)) := by
  unfold init_userp at hs
  simp only at hs
  split at hs
  · simp at hs
  · split_ifs at hs with hc
    · simp at hs
    · refine memalign_all_success k _ _ _ r ?_ hs
      have hc2 : ¬ k.calloc = 0 := by simpa [UsbCam.call] using hc
      simp [hc2, zeroed_buffers]

/-- C12.  For a page size `2^j` and a buffer size with
`buffer_size + page_size - 1 < 2^32`, the length that line 562 of `init_userp`
computes is `page_size * ((buffer_size + page_size - 1) / page_size)`, which is
the least multiple of the page size that is at least `buffer_size`, is below
`buffer_size + page_size`, and is `buffer_size` itself when that is a multiple
of the page size; and a successful `init_userp` leaves `n_buffers_ = 4` and an
array of exactly four buffers, each with that length. -/
theorem init_userp_page_rounding (k : Kernel) (s : UsbCam) (buffer_size j : Nat)
    (hp : k.getpagesize = 2 ^ j) (hb : buffer_size + 2 ^ j - 1 < 2 ^ 32) :
    u32 (buffer_size + u32 k.getpagesize + (2 ^ 32 - 1)) &&& not32 (u32 k.getpagesize + (2 ^ 32 - 1))
      = 2 ^ j * ((buffer_size + 2 ^ j - 1) / 2 ^ j) ∧
    (2 ^ j ∣ 2 ^ j * ((buffer_size + 2 ^ j - 1) / 2 ^ j) ∧
      buffer_size ≤ 2 ^ j * ((buffer_size + 2 ^ j - 1) / 2 ^ j) ∧
      ∀ m, 2 ^ j ∣ m → buffer_size ≤ m → 2 ^ j * ((buffer_size + 2 ^ j - 1) / 2 ^ j) ≤ m) ∧
    2 ^ j * ((buffer_size + 2 ^ j - 1) / 2 ^ j) < buffer_size + 2 ^ j ∧
    (2 ^ j ∣ buffer_size → 2 ^ j * ((buffer_size + 2 ^ j - 1) / 2 ^ j) = buffer_size) ∧
    ∀ r, init_userp k s buffer_size = (true, r) →
      r.n_buffers_ = 4 ∧ r.buffers_data.length = 4 ∧
      (∀ x ∈ r.buffers_data, x.length = 2 ^ j * ((buffer_size + 2 ^ j - 1) / 2 ^ j)) ∧
      r.buffers_data = (List.range 4).map (fun i =>
        ({ start := k.memalign i,
           length := 2 ^ j * ((buffer_size + 2 ^ j - 1) / 2 ^ j) } : buffer)) := by
  have hval := page_rounding_value buffer_size j hb
  rw [← hp] at hval
  obtain ⟨hleast, hlt, hdvd⟩ := round_up_least (2 ^ j) buffer_size (Nat.two_pow_pos j)
  refine ⟨by rw [hval, hp], hleast, hlt, hdvd, ?_⟩
  intro r hr
  obtain ⟨hn, hdata⟩ := init_userp_success k s r buffer_size hr
  rw [hval, hp] at hdata
  refine ⟨hn, ?_, ?_, hdata⟩
  · rw [hdata]
    simp
  · intro x hx
    rw [hdata] at hx
    simp only [List.mem_map] at hx
    obtain ⟨i, _, rfl⟩ := hx
    rfl

/-- C12 (witness).  With a page size of `4096 = 2^12` and an image size of `16`
bytes, `init_userp` succeeds on the opened user-pointer session and records
four buffers of `4096` bytes. -/
theorem init_userp_page_rounding_witness :
    two_buffer_device.getpagesize = 2 ^ 12 ∧
    (init_userp two_buffer_device (opened IO_METHOD_USERPTR) 16).1 = true ∧
    (init_userp two_buffer_device (opened IO_METHOD_USERPTR) 16).2.n_buffers_ = 4 ∧
    (init_userp two_buffer_device (opened IO_METHOD_USERPTR) 16).2.buffers_data
      = [⟨0x20000, 4096⟩, ⟨0x30000, 4096⟩, ⟨0x40000, 4096⟩, ⟨0x50000, 4096⟩] :=
  have h := (init_userp_page_rounding two_buffer_device (opened IO_METHOD_USERPTR) 16 12 rfl
    (by decide)).2.2.2.2 _ (Prod.ext (by decide : (init_userp two_buffer_device
      (opened IO_METHOD_USERPTR) 16).1 = true) rfl)
  ⟨rfl, by decide, h.1, h.2.2.2.trans (by decide)⟩

/-! ## Starting and stopping the stream: the contract -/

/-- One iteration of the enqueue loop of `start_capturing`. -/
theorem enqueue_all_step (k : Kernel) (n r : Nat) (s : UsbCam) :
    enqueue_all k n (r + 1) s =
      if k.VIDIOC_QBUF (n - (r + 1)) = false then
        (false, { s with trace := s.trace ++ [Call.VIDIOC_QBUF (n - (r + 1))] })
      else
        enqueue_all k n r { s with trace := s.trace ++ [Call.VIDIOC_QBUF (n - (r + 1))] } :=
  rfl

/-- When every remaining enqueue succeeds the loop issues them all, in index
order, and changes nothing but the trace. -/
theorem enqueue_all_ok (k : Kernel) (n : Nat) : ∀ (r : Nat) (s : UsbCam), r ≤ n →
    (∀ i, n - r ≤ i → i < n → k.VIDIOC_QBUF i = true) →
    enqueue_all k n r s
      = (true, { s with trace := s.trace ++ (List.range' (n - r) r).map Call.VIDIOC_QBUF })
  | 0, s, _, _ => by simp [enqueue_all]
  | r + 1, s, hr, hall => by
    have hq : k.VIDIOC_QBUF (n - (r + 1)) = true := hall _ (Nat.le_refl _) (by omega)
    have hnext : n - (r + 1) + 1 = n - r := by omega
    rw [enqueue_all_step, if_neg (by simp [hq]),
      enqueue_all_ok k n r _ (by omega) (fun i h1 h2 => hall i (by omega) h2)]
    simp [List.range'_succ, hnext]

/-- When the enqueue of index `j` is the first to fail the loop issues the
enqueues up to and including `j`, in index order, and returns `false`. -/
theorem enqueue_all_fails (k : Kernel) (n j : Nat) : ∀ (r : Nat) (s : UsbCam), r ≤ n →
    n - r ≤ j → j < n → k.VIDIOC_QBUF j = false →
    (∀ i, n - r ≤ i → i < j → k.VIDIOC_QBUF i = true) →
    enqueue_all k n r s
      = (false,
          { s with trace := s.trace ++ (List.range' (n - r) (j + 1 - (n - r))).map Call.VIDIOC_QBUF })
  | 0, s, _, h1, h2, _, _ => by omega
  | r + 1, s, hr, h1, h2, hj, hall => by
    rw [enqueue_all_step]
    by_cases hq : k.VIDIOC_QBUF (n - (r + 1)) = false
    · have hjeq : j = n - (r + 1) := by
        by_contra hne
        have := hall (n - (r + 1)) (Nat.le_refl _) (by omega)
        simp [hq] at this
      rw [if_pos hq]
      have hone : j + 1 - (n - (r + 1)) = 1 := by omega
      simp [hone, List.range']
    · have hjne : j ≠ n - (r + 1) := by
        intro he
        rw [he] at hj
        exact hq hj
      have hnext : n - (r + 1) + 1 = n - r := by omega
      have hcount : j + 1 - (n - (r + 1)) = (j + 1 - (n - r)) + 1 := by omega
      rw [if_neg hq, enqueue_all_fails k n j r _ (by omega) (by omega) h2 hj
        (fun i h3 h4 => hall i (by omega) h4)]
      simp [hcount, List.range'_succ, hnext]

/-- The streaming branches of `start_capturing` on a session that is not capturing. -/
theorem start_capturing_streaming (k : Kernel) (s : UsbCam) (hcap : s.is_capturing_ = false)
    (hio : s.io_ = IO_METHOD_MMAP ∨ s.io_ = IO_METHOD_USERPTR) :
    start_capturing k s =
      if (enqueue_all k s.n_buffers_ s.n_buffers_ s).1 = false then
        (false, (enqueue_all k s.n_buffers_ s.n_buffers_ s).2)
      else if k.VIDIOC_STREAMON = false then
        (false, (enqueue_all k s.n_buffers_ s.n_buffers_ s).2.call Call.VIDIOC_STREAMON)
      else
        (true, { (enqueue_all k s.n_buffers_ s.n_buffers_ s).2.call Call.VIDIOC_STREAMON with
          is_capturing_ := true }) := by
  rcases hio with h | h <;> simp [start_capturing, hcap, h]

/-- The streaming branches of `start_capturing` when every enqueue succeeds. -/
theorem start_capturing_enqueued (k : Kernel) (s : UsbCam) (hcap : s.is_capturing_ = false)
    (hio : s.io_ = IO_METHOD_MMAP ∨ s.io_ = IO_METHOD_USERPTR)
    (hall : ∀ i, i < s.n_buffers_ → k.VIDIOC_QBUF i = true) :
    start_capturing k s =
      (k.VIDIOC_STREAMON,
        { s with
          trace := s.trace ++ (List.range s.n_buffers_).map Call.VIDIOC_QBUF
            ++ [Call.VIDIOC_STREAMON],
          is_capturing_ := k.VIDIOC_STREAMON }) := by
  have hq := enqueue_all_ok k s.n_buffers_ s.n_buffers_ s (Nat.le_refl _)
    (fun i _ h => hall i h)
  rw [start_capturing_streaming k s hcap hio, hq]
  cases hon : k.VIDIOC_STREAMON <;>
    simp [UsbCam.call, hcap, List.range_eq_range']

/-- The streaming branches of `start_capturing` when the enqueue of index `j`
is the first to fail. -/
theorem start_capturing_enqueue_fails (k : Kernel) (s : UsbCam) (j : Nat)
    (hcap : s.is_capturing_ = false)
    (hio : s.io_ = IO_METHOD_MMAP ∨ s.io_ = IO_METHOD_USERPTR)
    (hj : j < s.n_buffers_) (hfail : k.VIDIOC_QBUF j = false)
    (hbefore : ∀ i, i < j → k.VIDIOC_QBUF i = true) :
    start_capturing k s =
      (false, { s with trace := s.trace ++ (List.range (j + 1)).map Call.VIDIOC_QBUF }) := by
  have hq := enqueue_all_fails k s.n_buffers_ j s.n_buffers_ s (Nat.le_refl _)
    (by omega) hj hfail (fun i _ h => hbefore i h)
  rw [start_capturing_streaming k s hcap hio, hq]
  simp [List.range_eq_range']

/-- C13 (the claim as amended).  `start_capturing` returns `true` exactly when
the session was not already capturing and either the method is READ or
IO_METHOD_UNKNOWN, or every one of the `n_buffers_` enqueue calls and the
stream-on call succeed.  `is_capturing_` is `true` afterwards exactly when it
was already `true` or the call returned `true`.  When already capturing the
call returns `false` and leaves the state, trace included, as it was.  For
READ and IO_METHOD_UNKNOWN no call is issued.  For MMAP and USERPTR the
enqueues are issued in index order from `0`, all before stream-on; when the
enqueue of index `j` is the first to fail the calls end with it and no
stream-on is issued. -/
theorem start_capturing_contract (k : Kernel) (s : UsbCam) :
    ((start_capturing k s).1 = true ↔
      s.is_capturing_ = false ∧
        (s.io_ = IO_METHOD_READ ∨ s.io_ = IO_METHOD_UNKNOWN ∨
          ((∀ i, i < s.n_buffers_ → k.VIDIOC_QBUF i = true) ∧ k.VIDIOC_STREAMON = true))) ∧
    ((start_capturing k s).2.is_capturing_ = true ↔
      s.is_capturing_ = true ∨ (start_capturing k s).1 = true) ∧
    (s.is_capturing_ = true → start_capturing k s = (false, s)) ∧
    (s.is_capturing_ = false → s.io_ = IO_METHOD_READ ∨ s.io_ = IO_METHOD_UNKNOWN →
      (start_capturing k s).2.trace = s.trace) ∧
    (s.is_capturing_ = false → s.io_ = IO_METHOD_MMAP ∨ s.io_ = IO_METHOD_USERPTR →
      ((∀ i, i < s.n_buffers_ → k.VIDIOC_QBUF i = true) →
        (start_capturing k s).2.trace
          = s.trace ++ (List.range s.n_buffers_).map Call.VIDIOC_QBUF ++ [Call.VIDIOC_STREAMON]) ∧
      (∀ j, j < s.n_buffers_ → k.VIDIOC_QBUF j = false →
        (∀ i, i < j → k.VIDIOC_QBUF i = true) →
        (start_capturing k s).2.trace = s.trace ++ (List.range (j + 1)).map Call.VIDIOC_QBUF)) := by
  by_cases hcap : s.is_capturing_ = true
  · have hres : start_capturing k s = (false, s) := by simp [start_capturing, hcap]
    simp [hres, hcap]
  · have hcap0 : s.is_capturing_ = false := by simpa using hcap
    have hstream : s.io_ = IO_METHOD_READ ∨ s.io_ = IO_METHOD_UNKNOWN ∨
        s.io_ = IO_METHOD_MMAP ∨ s.io_ = IO_METHOD_USERPTR := by
      cases s.io_ <;> simp
    rcases hstream with hio | hio | hio
    · simp [start_capturing, hcap0, hio]
    · simp [start_capturing, hcap0, hio]
    · have hnr : s.io_ ≠ IO_METHOD_READ := by rcases hio with h | h <;> simp [h]
      have hnu : s.io_ ≠ IO_METHOD_UNKNOWN := by rcases hio with h | h <;> simp [h]
      by_cases hall : ∀ i, i < s.n_buffers_ → k.VIDIOC_QBUF i = true
      · have hres := start_capturing_enqueued k s hcap0 hio hall
        refine ⟨?_, ?_, ?_, ?_, ?_⟩
        · rw [hres]
          constructor
          · intro h
            exact ⟨hcap0, Or.inr (Or.inr ⟨hall, h⟩)⟩
          · rintro ⟨_, h | h | h⟩
            · exact absurd h hnr
            · exact absurd h hnu
            · exact h.2
        · simp [hres, hcap0]
        · intro h
          exact absurd h hcap
        · intro _ h
          rcases h with h | h
          · exact absurd h hnr
          · exact absurd h hnu
        · intro _ _
          refine ⟨fun _ => by simp [hres], ?_⟩
          intro j hj hfail _
          rw [hall j hj] at hfail
          exact absurd hfail (by decide)
      · have hex : ∃ j, j < s.n_buffers_ ∧ k.VIDIOC_QBUF j = false := by
          by_contra hno
          apply hall
          intro i hi
          by_contra hq
          exact hno ⟨i, hi, by simpa using hq⟩
        have hjs := Nat.find_spec hex
        have hjmin : ∀ i, i < Nat.find hex → k.VIDIOC_QBUF i = true := by
          intro i hi
          have := Nat.find_min hex hi
          by_contra hq
          exact this ⟨by omega, by simpa using hq⟩
        have hres := start_capturing_enqueue_fails k s (Nat.find hex) hcap0 hio hjs.1 hjs.2 hjmin
        refine ⟨?_, ?_, ?_, ?_, ?_⟩
        · simp [hres, hnr, hnu, hall]
        · simp [hres, hcap0]
        · intro h
          exact absurd h hcap
        · intro _ h
          rcases h with h | h
          · exact absurd h hnr
          · exact absurd h hnu
        · intro _ _
          refine ⟨fun h => absurd h hall, ?_⟩
          intro j hj hfail hbefore
          rw [start_capturing_enqueue_fails k s j hcap0 hio hj hfail hbefore]

/-- C13 (counterexample).  On an opened session with IO_METHOD_UNKNOWN that is
not capturing, on a device that rejects stream-on, `start_capturing` returns
`true` and marks the session capturing without issuing any call, although the
method is not READ and the stream-on call does not succeed. -/
theorem start_capturing_unknown_method :
    (opened IO_METHOD_UNKNOWN).is_capturing_ = false ∧
    (opened IO_METHOD_UNKNOWN).io_ ≠ IO_METHOD_READ ∧
    stream_failing_device.VIDIOC_STREAMON = false ∧
    (start_capturing stream_failing_device (opened IO_METHOD_UNKNOWN)).1 = true ∧
    (start_capturing stream_failing_device (opened IO_METHOD_UNKNOWN)).2.is_capturing_ = true ∧
    new_calls (opened IO_METHOD_UNKNOWN)
      (start_capturing stream_failing_device (opened IO_METHOD_UNKNOWN)).2 = [] := by
  refine ⟨by decide, by decide, by decide, by decide, by decide, by decide⟩

/-- C14 (the claim as amended).  `stop_capturing` returns `true` exactly when
the session was capturing and either the method is READ or IO_METHOD_UNKNOWN
(no call issued) or the stream-off call succeeds.  After it returns
`is_capturing()` is `false`, for every method and every answer of the device.
For MMAP and USERPTR on a capturing session stream-off is the one call issued.
When the session was not capturing it returns `false` and leaves the state,
trace included, as it was; so the second of two consecutive calls returns
`false` and changes nothing. -/
theorem stop_capturing_contract (k : Kernel) (s : UsbCam) :
    ((stop_capturing k s).1 = true ↔
      s.is_capturing_ = true ∧
        (s.io_ = IO_METHOD_READ ∨ s.io_ = IO_METHOD_UNKNOWN ∨ k.VIDIOC_STREAMOFF = true)) ∧
    is_capturing (stop_capturing k s).2 = false ∧
    (s.is_capturing_ = true → s.io_ = IO_METHOD_READ ∨ s.io_ = IO_METHOD_UNKNOWN →
      (stop_capturing k s).2.trace = s.trace) ∧
    (s.is_capturing_ = true → s.io_ = IO_METHOD_MMAP ∨ s.io_ = IO_METHOD_USERPTR →
      (stop_capturing k s).2.trace = s.trace ++ [Call.VIDIOC_STREAMOFF]) ∧
    (s.is_capturing_ = false → stop_capturing k s = (false, s)) ∧
    (∀ k2, stop_capturing k2 (stop_capturing k s).2 = (false, (stop_capturing k s).2)) := by
  cases hcap : s.is_capturing_ <;> cases hio : s.io_ <;> cases hoff : k.VIDIOC_STREAMOFF <;>
    simp [stop_capturing, is_capturing, UsbCam.call, hcap, hio, hoff]

/-- C14 (counterexample).  On a capturing session with IO_METHOD_UNKNOWN, on a
device that rejects stream-off, `stop_capturing` returns `true` without
issuing any call, although the method is not READ and the stream-off call
does not succeed. -/
theorem stop_capturing_unknown_method :
    (started IO_METHOD_UNKNOWN PIXEL_FORMAT_YUYV).is_capturing_ = true ∧
    (started IO_METHOD_UNKNOWN PIXEL_FORMAT_YUYV).io_ ≠ IO_METHOD_READ ∧
    stream_failing_device.VIDIOC_STREAMOFF = false ∧
    (stop_capturing stream_failing_device (started IO_METHOD_UNKNOWN PIXEL_FORMAT_YUYV)).1 = true ∧
    new_calls (started IO_METHOD_UNKNOWN PIXEL_FORMAT_YUYV)
      (stop_capturing stream_failing_device (started IO_METHOD_UNKNOWN PIXEL_FORMAT_YUYV)).2
      = [] := by
  refine ⟨by decide, by decide, by decide, by decide, by decide⟩

/-! ## The result of a grab -/

/-- The pixel decoder dispatch changes nothing of the frame but its bytes. -/
theorem process_image_frame (cv : Conversions) (s : UsbCam) (src : List Nat) (len : Int)
    (dest : camera_image_t) :
    ∃ bytes, (process_image cv s src len dest).2 = { dest with image := bytes } := by
  unfold process_image
  split_ifs <;> exact ⟨_, rfl⟩

/-- The pixel decoder dispatch leaves the `is_new` flag of the frame as it was. -/
theorem process_image_is_new (cv : Conversions) (s : UsbCam) (src : List Nat) (len : Int)
    (dest : camera_image_t) : (process_image cv s src len dest).2.is_new = dest.is_new := by
  obtain ⟨bytes, hb⟩ := process_image_frame cv s src len dest
  rw [hb]

/-- The pixel decoder dispatch leaves the width of the frame as it was. -/
theorem process_image_width (cv : Conversions) (s : UsbCam) (src : List Nat) (len : Int)
    (dest : camera_image_t) : (process_image cv s src len dest).2.width = dest.width := by
  obtain ⟨bytes, hb⟩ := process_image_frame cv s src len dest
  rw [hb]

/-- The pixel decoder dispatch leaves the height of the frame as it was. -/
theorem process_image_height (cv : Conversions) (s : UsbCam) (src : List Nat) (len : Int)
    (dest : camera_image_t) : (process_image cv s src len dest).2.height = dest.height := by
  obtain ⟨bytes, hb⟩ := process_image_frame cv s src len dest
  rw [hb]

/-- Whatever `read_frame` returns, it leaves the frame allocated with its
`is_new` flag and its sizes as they were, and it leaves the monochrome flag of
the session as it was. -/
theorem read_frame_frame (cv : Conversions) (k : Kernel) (s r : UsbCam) (b : Bool)
    (img : camera_image_t) (himg : s.image_ = some img)
    (hr : read_frame cv k s = some (b, r)) :
    ∃ img1, r.image_ = some img1 ∧ img1.is_new = img.is_new ∧ img1.width = img.width ∧
      img1.height = img.height ∧ r.monochrome_ = s.monochrome_ := by
  cases hio : s.io_ <;> simp only [read_frame, hio] at hr
  all_goals repeat' split at hr
  all_goals simp only [UsbCam.call, Option.some.injEq, Prod.mk.injEq, reduceCtorEq] at *
  all_goals obtain ⟨_, rfl⟩ := hr
  all_goals simp_all [process_image_is_new, process_image_width, process_image_height]

/-- The function `grab_image` on a session whose frame is allocated, in terms of
the state after the wait. -/
theorem grab_image_eq (cv : Conversions) (k : Kernel) (s : UsbCam) (img : camera_image_t)
    (himg : s.image_ = some img) :
    grab_image cv k s =
      if k.select = -1 then some (false, after_wait k s img)
      else if k.select = 0 then some (false, after_wait k s img)
      else
        match read_frame cv k (after_wait k s img) with
        | none => none
        | some (false, s3) => some (false, s3)
        | some (true, s3) =>
          match s3.image_ with
          | none => none
          | some img3 => some (true, { s3 with image_ := some { img3 with is_new := 1 } }) := by
  unfold grab_image
  simp only [UsbCam.call, himg, after_wait, List.append_assoc, List.singleton_append]

/-- C15.  On a session whose frame is allocated, with `select` returning `-1`
or more: `grab_image` returns `true` exactly when the wait reports at least
one ready descriptor and `read_frame` (run after the wait) returns `true`, and
then `is_new` is `1`; when the wait fails or reports no descriptor it returns
`false` having issued the wait and the clock reading only, so no dequeue and
no read; and whenever it returns `false`, the conversion failure inside
`read_frame` included, `is_new` is what it was. -/
theorem grab_image_contract (cv : Conversions) (k : Kernel) (s : UsbCam) (img : camera_image_t)
    (himg : s.image_ = some img) (hsel : -1 ≤ k.select) :
    ((∃ r, grab_image cv k s = some (true, r)) ↔
      0 < k.select ∧ ∃ r3, read_frame cv k (after_wait k s img) = some (true, r3)) ∧
    (∀ r, grab_image cv k s = some (true, r) →
      r.image_.map (fun i => i.is_new) = some 1) ∧
    (k.select ≤ 0 → ∃ r, grab_image cv k s = some (false, r) ∧
      r.trace = s.trace ++ [Call.select s.fd_, Call.timespec_get]) ∧
    (∀ r, grab_image cv k s = some (false, r) →
      r.image_.map (fun i => i.is_new) = some img.is_new) := by
  have haw : (after_wait k s img).image_ = some { img with stamp := k.timespec_get } := rfl
  rw [grab_image_eq cv k s img himg]
  by_cases h1 : k.select = -1
  · simp [h1, after_wait]
  · by_cases h0 : k.select = 0
    · simp [h0, after_wait]
    · have hpos : 0 < k.select := by omega
      have hnle : ¬ k.select ≤ 0 := by omega
      simp only [h1, h0, if_false, hpos, true_and, hnle, false_implies, true_and]
      cases hrf : read_frame cv k (after_wait k s img) with
      | none => simp
      | some p =>
        obtain ⟨b, r3⟩ := p
        obtain ⟨img1, hi1, hnew, _, _, _⟩ := read_frame_frame cv k _ r3 b _ haw hrf
        cases b
        · simp [hi1, hnew]
        · simp [hi1]

/-- C15 (witness).  On the started memory-mapped session, with a device that
reports the descriptor ready and hands out buffer `0`, `grab_image` returns
`true`; with a wait that times out it returns `false` after the wait and the
clock reading. -/
theorem grab_image_contract_witness :
    (-1 : Int) ≤ (dequeue_device IO_METHOD_MMAP 0 100 0).select ∧
    (∃ r, grab_image conv_ok (dequeue_device IO_METHOD_MMAP 0 100 0)
      (started IO_METHOD_MMAP PIXEL_FORMAT_YUYV) = some (true, r)) ∧
    (∃ r, grab_image conv_ok timeout_device (started IO_METHOD_MMAP PIXEL_FORMAT_YUYV)
        = some (false, r) ∧
      r.trace = (started IO_METHOD_MMAP PIXEL_FORMAT_YUYV).trace
        ++ [Call.select (started IO_METHOD_MMAP PIXEL_FORMAT_YUYV).fd_, Call.timespec_get]) :=
  ⟨by decide,
   (grab_image_contract conv_ok (dequeue_device IO_METHOD_MMAP 0 100 0)
      (started IO_METHOD_MMAP PIXEL_FORMAT_YUYV) _ rfl (by decide)).1.mpr ⟨by decide, _, rfl⟩,
   (grab_image_contract conv_ok timeout_device
      (started IO_METHOD_MMAP PIXEL_FORMAT_YUYV) _ rfl (by decide)).2.2.1 (by decide)⟩

/-! ## Best-effort steps of `init_device` -/

/-- C16 (the claim as amended).  When the capability query, the capability
checks and the format negotiation succeed, `init_device` returns `true`
exactly when the query of the stream parameters (VIDIOC_G_PARM) succeeds,
whatever the outcomes of the setting of the stream parameters (VIDIOC_S_PARM),
of the crop query and of the crop reset. -/
theorem init_device_best_effort (k : Kernel) (s : UsbCam) (w h : Nat) (fr : Int)
    (caps : Nat) (fmt : v4l2_pix_format)
    (hq : k.VIDIOC_QUERYCAP = some caps) (hc : capability_checks_pass s.io_ caps)
    (hfmt : k.VIDIOC_S_FMT ⟨w, h, s.pixelformat_, 0, 0⟩ = some fmt)
    (s_parm cropcap s_crop : Bool) :
    (init_device
      { k with VIDIOC_S_PARM := s_parm, VIDIOC_CROPCAP := cropcap, VIDIOC_S_CROP := s_crop }
      s w h fr).1 = k.VIDIOC_G_PARM.isSome := by
  obtain hg | ⟨g, hg⟩ : k.VIDIOC_G_PARM = none ∨ ∃ g, k.VIDIOC_G_PARM = some g := by
    cases k.VIDIOC_G_PARM <;> simp
  · obtain ⟨h1, h2, h3⟩ := hc
    cases hio : s.io_ <;> cases cropcap <;>
      simp_all [init_device, UsbCam.call]
  · rw [init_device_reaches_allocation
      { k with VIDIOC_S_PARM := s_parm, VIDIOC_CROPCAP := cropcap, VIDIOC_S_CROP := s_crop }
      s w h fr caps g fmt hq hc hfmt hg]
    simp [hg]

/-- C16 (witness).  On the opened memory-mapped session, with the setting of
the stream parameters, the crop query and the crop reset all failing,
`init_device` returns `true`. -/
theorem init_device_best_effort_witness :
    (init_device
      { two_buffer_device with
        VIDIOC_S_PARM := false, VIDIOC_CROPCAP := false, VIDIOC_S_CROP := false }
      (opened IO_METHOD_MMAP) 4 2 10).1 = true :=
  init_device_best_effort two_buffer_device (opened IO_METHOD_MMAP) 4 2 10
    (V4L2_CAP_VIDEO_CAPTURE ||| V4L2_CAP_READWRITE ||| V4L2_CAP_STREAMING)
    ⟨4, 2, V4L2_PIX_FMT_YUYV, 0, 0⟩ rfl
    ⟨by decide, fun _ => by decide, fun _ => by decide⟩ rfl false false false

/-- C16 (counterexample).  On a device where the capability query, the
capability checks and the format negotiation succeed and the query of the
stream parameters fails, `init_device` returns `false`, the failed query being
its last call. -/
theorem init_device_stream_params_fatal :
    no_stream_params_device.VIDIOC_G_PARM = none ∧
    (no_stream_params_device.VIDIOC_S_FMT ⟨4, 2, V4L2_PIX_FMT_YUYV, 0, 0⟩).isSome = true ∧
    (init_device no_stream_params_device (opened IO_METHOD_MMAP) 4 2 10).1 = false ∧
    new_calls (opened IO_METHOD_MMAP)
      (init_device no_stream_params_device (opened IO_METHOD_MMAP) 4 2 10).2
      = [Call.VIDIOC_QUERYCAP, Call.VIDIOC_CROPCAP, Call.VIDIOC_S_CROP, Call.VIDIOC_S_FMT 4 2,
         Call.VIDIOC_G_PARM] := by
  refine ⟨by decide, by decide, by decide, by decide⟩

/-! ## The control passthrough through `v4l2-ctl` -/

/-- What `set_v4l_parameter` returns for every outcome of the command: `true`
when the command cannot be run or writes some text, `false` when it runs and
writes nothing. -/
theorem set_v4l_parameter_result (k : Kernel) (s : UsbCam) (param value : String) :
    (set_v4l_parameter k s param value).1 =
      match k.popen ("v4l2-ctl --device=" ++ s.camera_dev_ ++ " -c " ++ param ++ "=" ++ value
          ++ " 2>&1") with
      | none => true
      | some output => decide (output.length > 0) := by
  simp only [set_v4l_parameter]
  generalize k.popen ("v4l2-ctl --device=" ++ s.camera_dev_ ++ " -c " ++ param ++ "=" ++ value
      ++ " 2>&1") = answer
  cases answer with
  | none => simp
  | some output => by_cases h : output.length > 0 <;> simp [h]

/-- C17 (the code departs from the claim).  On the started session, setting
`brightness` to `50`: when `v4l2-ctl` runs and writes nothing the function
returns `false`; when it writes an error text the function returns `true`;
when it cannot be run the function returns `true`.  The command line is the
one built at line 1052. -/
theorem set_v4l_parameter_inverted :
    (set_v4l_parameter two_buffer_device
      (started IO_METHOD_MMAP PIXEL_FORMAT_YUYV) "brightness" "50").1 = false ∧
    (set_v4l_parameter_int two_buffer_device
      (started IO_METHOD_MMAP PIXEL_FORMAT_YUYV) "brightness" 50).1 = false ∧
    (set_v4l_parameter v4l2_ctl_complains
      (started IO_METHOD_MMAP PIXEL_FORMAT_YUYV) "brightness" "50").1 = true ∧
    (set_v4l_parameter v4l2_ctl_missing
      (started IO_METHOD_MMAP PIXEL_FORMAT_YUYV) "brightness" "50").1 = true ∧
    new_calls (started IO_METHOD_MMAP PIXEL_FORMAT_YUYV)
      (set_v4l_parameter two_buffer_device
        (started IO_METHOD_MMAP PIXEL_FORMAT_YUYV) "brightness" "50").2
      = [Call.popen "v4l2-ctl --device=/dev/video0 -c brightness=50 2>&1", Call.pclose] := by
  refine ⟨by decide, by decide, by decide, by decide, by decide⟩

/-! ## The shape of the image handed to the caller -/

/-- Whatever `grab_image` returns, it leaves the frame allocated with its sizes
as they were, and the monochrome flag of the session as it was. -/
theorem grab_image_frame (cv : Conversions) (k : Kernel) (s r : UsbCam) (b : Bool)
    (img : camera_image_t) (himg : s.image_ = some img)
    (hr : grab_image cv k s = some (b, r)) :
    ∃ img1, r.image_ = some img1 ∧ img1.width = img.width ∧ img1.height = img.height ∧
      r.monochrome_ = s.monochrome_ := by
  have haw : (after_wait k s img).image_ = some { img with stamp := k.timespec_get } := rfl
  rw [grab_image_eq cv k s img himg] at hr
  split_ifs at hr
  · simp only [Option.some.injEq, Prod.mk.injEq] at hr
    obtain ⟨_, rfl⟩ := hr
    exact ⟨_, rfl, rfl, rfl, rfl⟩
  · simp only [Option.some.injEq, Prod.mk.injEq] at hr
    obtain ⟨_, rfl⟩ := hr
    exact ⟨_, rfl, rfl, rfl, rfl⟩
  · cases hrf : read_frame cv k (after_wait k s img) with
    | none => simp [hrf] at hr
    | some p =>
      obtain ⟨b1, r3⟩ := p
      obtain ⟨img1, hi1, _, hw, hh, hm⟩ := read_frame_frame cv k _ r3 b1 _ haw hrf
      cases b1
      · simp only [hrf, Option.some.injEq, Prod.mk.injEq] at hr
        obtain ⟨_, rfl⟩ := hr
        exact ⟨img1, hi1, hw, hh, hm⟩
      · simp only [hrf, hi1, Option.some.injEq, Prod.mk.injEq] at hr
        obtain ⟨_, rfl⟩ := hr
        exact ⟨_, rfl, hw, hh, hm⟩

/-- C18.  On a session whose frame is allocated and whose sizes satisfy
`3 * width * height < 2^32`: whenever `get_image` returns `true` the reported
height and width are those of the frame, the encoding is `mono8` with
`step = width` on a monochrome session and `rgb8` with `step = 3 * width`
otherwise, and the data has `step * height` elements, which is `921600` on a
`640` by `480` session that is not monochrome; when the width or the height of
the frame is `0` it returns `false`; when the grab returns `false` it returns
`false`; and whenever it returns `false` the reference arguments are as they
were. -/
theorem get_image_shape (cv : Conversions) (k : Kernel) (s : UsbCam) (out : image_out)
    (img : camera_image_t) (himg : s.image_ = some img)
    (hov : 3 * img.width * img.height < 2 ^ 32) :
    (∀ r o, get_image cv k s out = some (true, r, o) →
      o.height = img.height ∧ o.width = img.width ∧
      (s.monochrome_ = true → o.encoding = "mono8" ∧ o.step = o.width) ∧
      (s.monochrome_ = false → o.encoding = "rgb8" ∧ o.step = 3 * o.width) ∧
      o.data.length = o.step * o.height ∧
      (s.monochrome_ = false → img.width = 640 → img.height = 480 → o.data.length = 921600)) ∧
    (img.width = 0 ∨ img.height = 0 → get_image cv k s out = some (false, s, out)) ∧
    (∀ r, img.width ≠ 0 → img.height ≠ 0 → grab_image cv k s = some (false, r) →
      get_image cv k s out = some (false, r, out)) ∧
    (∀ r o, get_image cv k s out = some (false, r, o) → o = out) := by
  by_cases hz : img.width = 0 ∨ img.height = 0
  · have hget : get_image cv k s out = some (false, s, out) := by
      simp [get_image, himg, hz]
    refine ⟨?_, fun _ => hget, ?_, ?_⟩
    · intro r o h
      rw [hget] at h
      simp at h
    · intro r h1 h2
      rcases hz with h | h
      · exact absurd h h1
      · exact absurd h h2
    · intro r o h
      rw [hget] at h
      simp only [Option.some.injEq, Prod.mk.injEq, true_and] at h
      exact h.2.symm
  · have hh : 0 < img.height := Nat.pos_of_ne_zero (fun h => hz (Or.inr h))
    cases hg : grab_image cv k s with
    | none =>
      have hget : get_image cv k s out = none := by
        simp [get_image, himg, hz, hg]
      refine ⟨?_, fun h => absurd h hz, ?_, ?_⟩
      · intro r o h
        rw [hget] at h
        simp at h
      · intro r _ _ h
        simp at h
      · intro r o h
        rw [hget] at h
        simp at h
    | some p =>
      obtain ⟨b, r1⟩ := p
      obtain ⟨img1, hi1, hw1, hh1, hm1⟩ := grab_image_frame cv k s r1 b img himg hg
      cases b
      · have hget : get_image cv k s out = some (false, r1, out) := by
          simp [get_image, himg, hz, hg]
        refine ⟨?_, fun h => absurd h hz, ?_, ?_⟩
        · intro r o h
          rw [hget] at h
          simp at h
        · intro r _ _ h
          simp only [Option.some.injEq, Prod.mk.injEq, true_and] at h
          rw [hget, h]
        · intro r o h
          rw [hget] at h
          simp only [Option.some.injEq, Prod.mk.injEq, true_and] at h
          exact h.2.symm
      · have hstep3 : u32 (img.width * 3) = 3 * img.width := by
          unfold u32
          have : 3 * img.width * 1 ≤ 3 * img.width * img.height :=
            Nat.mul_le_mul_left (3 * img.width) hh
          omega
        have hsize3 : u32 (3 * img.width * img.height) = 3 * img.width * img.height :=
          Nat.mod_eq_of_lt hov
        have hsize1 : u32 (img.width * img.height) = img.width * img.height := by
          unfold u32
          have : img.width * img.height ≤ 3 * (img.width * img.height) :=
            Nat.le_mul_of_pos_left _ (by decide)
          rw [← Nat.mul_assoc] at this
          omega
        refine ⟨?_, fun h => absurd h hz, ?_, ?_⟩
        · intro r o h
          cases hmono : s.monochrome_
          · simp only [get_image, himg, hz, hg, hi1, hw1, hh1, hm1, hmono, hstep3, hsize3,
              if_false, Bool.false_eq_true] at h
            split_ifs at h with hlen
            simp only [Option.some.injEq, Prod.mk.injEq, true_and] at h
            obtain ⟨_, rfl⟩ := h
            have hlen2 : 3 * img.width * img.height ≤ img1.image.length := by omega
            refine ⟨rfl, rfl, fun h => absurd h (by decide), fun _ => ⟨rfl, rfl⟩, ?_, ?_⟩
            · simp [hlen2]
            · intro _ h1 h2
              rw [h1, h2] at hlen2
              simp only [h1, h2, List.length_take]
              omega
          · simp only [get_image, himg, hz, hg, hi1, hw1, hh1, hm1, hmono, hsize1,
              if_false, if_true] at h
            split_ifs at h with hlen
            simp only [Option.some.injEq, Prod.mk.injEq, true_and] at h
            obtain ⟨_, rfl⟩ := h
            have hlen2 : img.width * img.height ≤ img1.image.length := by omega
            refine ⟨rfl, rfl, fun _ => ⟨rfl, rfl⟩, fun h => absurd h (by decide), ?_, ?_⟩
            · simp [hlen2]
            · intro h
              exact absurd h (by decide)
        · intro r _ _ h
          simp at h
        · intro r o h
          exfalso
          simp only [get_image, himg, hz, hg, hi1, if_false] at h
          split_ifs at h <;> simp at h

set_option maxRecDepth 8192 in
/-- C18 (witness).  On the started memory-mapped YUYV session of `4` by `2`
pixels a successful `get_image` reports height `2`, width `4`, the encoding
`rgb8`, a step of `12` and `24` bytes of data. -/
theorem get_image_shape_witness :
    ∃ r o, get_image conv_ok (dequeue_device IO_METHOD_MMAP 0 100 0)
        (started IO_METHOD_MMAP PIXEL_FORMAT_YUYV) no_image = some (true, r, o) ∧
      o.height = 2 ∧ o.width = 4 ∧ o.encoding = "rgb8" ∧ o.step = 12 ∧ o.data.length = 24 :=
  by
  have hb : (get_image conv_ok (dequeue_device IO_METHOD_MMAP 0 100 0)
      (started IO_METHOD_MMAP PIXEL_FORMAT_YUYV) no_image).map (fun x => x.1) = some true := by
    decide
  match hget : get_image conv_ok (dequeue_device IO_METHOD_MMAP 0 100 0)
      (started IO_METHOD_MMAP PIXEL_FORMAT_YUYV) no_image with
  | none =>
    rw [hget] at hb
    simp at hb
  | some (false, r, o) =>
    rw [hget] at hb
    simp at hb
  | some (true, r, o) =>
    have h := (get_image_shape conv_ok (dequeue_device IO_METHOD_MMAP 0 100 0)
      (started IO_METHOD_MMAP PIXEL_FORMAT_YUYV) no_image
      { width := 4, height := 2, bytes_per_pixel := 3, image_size := 24, stamp := ⟨0, 0⟩,
        image := List.replicate (24 * 8) 0, is_new := 0 } rfl
      (by decide : 3 * 4 * 2 < 2 ^ 32)).1 r o hget
    have hheight : o.height = 2 := h.1
    have hwidth : o.width = 4 := h.2.1
    have hstep : o.step = 12 := by rw [(h.2.2.2.1 rfl).2, hwidth]
    have hdata : o.data.length = 24 := by rw [h.2.2.2.2.1, hstep, hheight]
    exact ⟨r, o, rfl, hheight, hwidth, (h.2.2.2.1 rfl).1, hstep, hdata⟩

/-! ## Insufficient buffers and opening the device -/

/-- C19.  When the device grants fewer than two buffers `init_mmap` returns
`false` having issued the buffer request only, so no buffer query and no
`mmap`; `n_buffers_`, the pointer `buffers_` and the buffer array are as they
were. -/
theorem init_mmap_insufficient (k : Kernel) (s : UsbCam) (count : Nat)
    (hreq : k.VIDIOC_REQBUFS = some count) (hlt : count < 2) :
    init_mmap k s = (false, { s with trace := s.trace ++ [Call.VIDIOC_REQBUFS] }) ∧
    (init_mmap k s).2.n_buffers_ = s.n_buffers_ ∧
    (init_mmap k s).2.buffers_ = s.buffers_ ∧
    (init_mmap k s).2.buffers_data = s.buffers_data ∧
    (∀ i, Call.VIDIOC_QUERYBUF i ∉ new_calls s (init_mmap k s).2 ∧
      Call.mmap i ∉ new_calls s (init_mmap k s).2) := by
  have hres : init_mmap k s = (false, { s with trace := s.trace ++ [Call.VIDIOC_REQBUFS] }) := by
    simp [init_mmap, hreq, hlt, UsbCam.call]
  rw [hres]
  simp [new_calls]

/-- C19 (witness).  On a device that grants one buffer, on the opened
memory-mapped session. -/
theorem init_mmap_insufficient_witness :
    one_buffer_device.VIDIOC_REQBUFS = some 1 ∧
    init_mmap one_buffer_device (opened IO_METHOD_MMAP)
      = (false, { opened IO_METHOD_MMAP with
          trace := (opened IO_METHOD_MMAP).trace ++ [Call.VIDIOC_REQBUFS] }) :=
  ⟨rfl, (init_mmap_insufficient one_buffer_device (opened IO_METHOD_MMAP) 1 rfl (by decide)).1⟩

/-- C20.  When `stat` fails or the path is not a character device
`open_device` returns `false` having issued `stat` only, so without attempting
to open the path, and `fd_` is as it was; when the path is a character device
and `open` fails it returns `false` with `fd_ = -1`; it returns `true` exactly
when the path is a character device and `open` succeeds, and then `fd_` is the
descriptor that `open` returned.  On a fresh object a failed `stat` leaves
`fd_ = -1`. -/
theorem open_device_contract (k : Kernel) (s : UsbCam) :
    (k.stat = none ∨ k.stat = some false →
      open_device k s = (false, { s with trace := s.trace ++ [Call.stat] })) ∧
    (k.stat = some true → k.sys_open = -1 →
      (open_device k s).1 = false ∧ (open_device k s).2.fd_ = -1 ∧
      (open_device k s).2.trace = s.trace ++ [Call.stat, Call.sys_open]) ∧
    ((open_device k s).1 = true ↔ k.stat = some true ∧ k.sys_open ≠ -1) ∧
    ((open_device k s).1 = true → (open_device k s).2.fd_ = k.sys_open) ∧
    (∀ e, k.stat = none ∨ k.stat = some false →
      (open_device k (UsbCam.new e)).1 = false ∧ (open_device k (UsbCam.new e)).2.fd_ = -1) := by
  cases hst : k.stat with
  | none => simp [open_device, UsbCam.call, hst, UsbCam.new]
  | some is_chr =>
    cases is_chr
    · simp [open_device, UsbCam.call, hst, UsbCam.new]
    · by_cases hop : k.sys_open = -1 <;> simp [open_device, UsbCam.call, hst, hop]

/-! ## Capability gating -/

/-- C21.  When the queried capabilities lack the video-capture bit, or the
method is READ and the read/write bit is absent, or the method is MMAP or
USERPTR and the streaming bit is absent, `init_device` returns `false` having
issued the capability query only: no format-set call is issued and no buffer
is requested, allocated or mapped, and the buffer array is as it was. -/
theorem init_device_capability_gate (k : Kernel) (s : UsbCam) (w h : Nat) (fr : Int) (caps : Nat)
    (hq : k.VIDIOC_QUERYCAP = some caps)
    (hgate : caps &&& V4L2_CAP_VIDEO_CAPTURE = 0 ∨
      (s.io_ = IO_METHOD_READ ∧ caps &&& V4L2_CAP_READWRITE = 0) ∨
      ((s.io_ = IO_METHOD_MMAP ∨ s.io_ = IO_METHOD_USERPTR) ∧ caps &&& V4L2_CAP_STREAMING = 0)) :
    init_device k s w h fr = (false, { s with trace := s.trace ++ [Call.VIDIOC_QUERYCAP] }) ∧
    new_calls s (init_device k s w h fr).2 = [Call.VIDIOC_QUERYCAP] ∧
    (init_device k s w h fr).2.buffers_ = s.buffers_ ∧
    (init_device k s w h fr).2.buffers_data = s.buffers_data ∧
    (init_device k s w h fr).2.n_buffers_ = s.n_buffers_ := by
  have hres : init_device k s w h fr
      = (false, { s with trace := s.trace ++ [Call.VIDIOC_QUERYCAP] }) := by
    by_cases hcap : caps &&& V4L2_CAP_VIDEO_CAPTURE = 0
    · simp [init_device, hq, hcap, UsbCam.call]
    · rcases hgate with h1 | ⟨hio, h2⟩ | ⟨hio, h3⟩
      · exact absurd h1 hcap
      · simp [init_device, hq, hcap, UsbCam.call, hio, h2]
      · rcases hio with hio | hio <;> simp [init_device, hq, hcap, UsbCam.call, hio, h3]
  rw [hres]
  simp [new_calls]

/-- C21 (witness).  On a device whose capabilities are the video-capture bit
alone, on the opened memory-mapped session. -/
theorem init_device_capability_gate_witness :
    capture_only_device.VIDIOC_QUERYCAP = some V4L2_CAP_VIDEO_CAPTURE ∧
    V4L2_CAP_VIDEO_CAPTURE &&& V4L2_CAP_STREAMING = 0 ∧
    new_calls (opened IO_METHOD_MMAP)
      (init_device capture_only_device (opened IO_METHOD_MMAP) 4 2 10).2
      = [Call.VIDIOC_QUERYCAP] ∧
    (init_device capture_only_device (opened IO_METHOD_MMAP) 4 2 10).1 = false :=
  have h := init_device_capability_gate capture_only_device (opened IO_METHOD_MMAP) 4 2 10
    V4L2_CAP_VIDEO_CAPTURE rfl (Or.inr (Or.inr ⟨Or.inl rfl, by decide⟩))
  ⟨rfl, by decide, h.2.1, by rw [h.1]⟩

/-! ## The unknown I/O method -/

/-- C24.  On a session whose I/O method is IO_METHOD_UNKNOWN: `read_frame`
returns `true` and leaves the state, trace included, as it was, so it reads,
dequeues and converts nothing; `grab_image`, when the frame is allocated and
the wait reports a ready descriptor, returns `true` having issued the wait and
the clock reading only, with `is_new` set and the bytes of the frame as they
were; `start_capturing` on a session that is not capturing returns `true` and
`stop_capturing` on a capturing session returns `true`, each leaving the trace
as it was. -/
theorem unknown_method_passes (cv : Conversions) (k : Kernel) (s : UsbCam)
    (hio : s.io_ = IO_METHOD_UNKNOWN) :
    read_frame cv k s = some (true, s) ∧
    (∀ img, s.image_ = some img → 0 < k.select →
      grab_image cv k s = some (true,
        { s with
          trace := s.trace ++ [Call.select s.fd_, Call.timespec_get],
          image_ := some { img with stamp := k.timespec_get, is_new := 1 } })) ∧
    (s.is_capturing_ = false → start_capturing k s = (true, { s with is_capturing_ := true })) ∧
    (s.is_capturing_ = true → stop_capturing k s = (true, { s with is_capturing_ := false })) := by
  refine ⟨by simp [read_frame, hio], ?_, ?_, ?_⟩
  · intro img himg hsel
    have h1 : k.select ≠ -1 := by omega
    have h0 : k.select ≠ 0 := by omega
    have hrf : read_frame cv k (after_wait k s img) = some (true, after_wait k s img) := by
      simp [read_frame, after_wait, hio]
    rw [grab_image_eq cv k s img himg]
    simp only [h1, h0, if_false, hrf]
    rfl
  · intro hcap
    simp [start_capturing, hcap, hio]
  · intro hcap
    simp [stop_capturing, hcap, hio]

/-- C24 (witness).  On the session started with IO_METHOD_UNKNOWN, on a device
that reports the descriptor ready and offers no buffer. -/
theorem unknown_method_passes_witness :
    (started IO_METHOD_UNKNOWN PIXEL_FORMAT_YUYV).io_ = IO_METHOD_UNKNOWN ∧
    two_buffer_device.VIDIOC_DQBUF = none ∧
    read_frame conv_ok two_buffer_device (started IO_METHOD_UNKNOWN PIXEL_FORMAT_YUYV)
      = some (true, started IO_METHOD_UNKNOWN PIXEL_FORMAT_YUYV) ∧
    (grab_image conv_ok two_buffer_device (started IO_METHOD_UNKNOWN PIXEL_FORMAT_YUYV)).map
        (fun r => (r.1, new_calls (started IO_METHOD_UNKNOWN PIXEL_FORMAT_YUYV) r.2,
          r.2.image_.map (fun i => i.is_new)))
      = some (true, [Call.select 3, Call.timespec_get], some 1) :=
  ⟨rfl, rfl,
   (unknown_method_passes conv_ok two_buffer_device (started IO_METHOD_UNKNOWN PIXEL_FORMAT_YUYV)
      rfl).1,
   by decide⟩

/-! ## Format routing -/

/-- The mapping loop of `init_mmap` keeps the pixel format and the monochrome flag. -/
theorem mmap_all_format (k : Kernel) (count : Nat) : ∀ (r : Nat) (s : UsbCam),
    same_format s (mmap_all k count r s).2
  | 0, s => by simp [mmap_all, same_format]
  | r + 1, s => by
    simp only [mmap_all]
    split
    · simp [same_format, UsbCam.call]
    · split
      · simp [same_format, UsbCam.call]
      · exact mmap_all_format k count r _

/-- The allocation loop of `init_userp` keeps the pixel format and the monochrome flag. -/
theorem memalign_all_format (k : Kernel) (p L : Nat) : ∀ (r : Nat) (s : UsbCam),
    same_format s (memalign_all k p L r s).2
  | 0, s => by simp [memalign_all, same_format]
  | r + 1, s => by
    rw [memalign_all_step]
    split_ifs
    · simp [same_format]
    · exact memalign_all_format k p L r _

/-- The enqueue loop of `start_capturing` keeps the pixel format and the monochrome flag. -/
theorem enqueue_all_format (k : Kernel) (n : Nat) : ∀ (r : Nat) (s : UsbCam),
    same_format s (enqueue_all k n r s).2
  | 0, s => by simp [enqueue_all, same_format]
  | r + 1, s => by
    rw [enqueue_all_step]
    split_ifs
    · simp [same_format]
    · exact enqueue_all_format k n r _

/-- The three allocators keep the pixel format and the monochrome flag. -/
theorem allocate_format (k : Kernel) (s : UsbCam) (sizeimage : Nat) :
    same_format s (init_read k s sizeimage).2 ∧ same_format s (init_mmap k s).2 ∧
    same_format s (init_userp k s sizeimage).2 := by
  refine ⟨?_, ?_, ?_⟩
  · unfold init_read
    simp only
    split_ifs <;> simp [same_format, UsbCam.call]
  · unfold init_mmap
    simp only
    split
    · simp [same_format, UsbCam.call]
    · split_ifs
      · simp [same_format, UsbCam.call]
      · simp [same_format, UsbCam.call]
      · exact mmap_all_format k _ _ _
  · unfold init_userp
    simp only
    split
    · simp [same_format, UsbCam.call]
    · split_ifs
      · simp [same_format, UsbCam.call]
      · exact memalign_all_format k _ _ _ _

/-- The function `init_device` keeps the pixel format and the monochrome flag. -/
theorem init_device_format (k : Kernel) (s : UsbCam) (w h : Nat) (fr : Int) :
    same_format s (init_device k s w h fr).2 := by
  cases hq : k.VIDIOC_QUERYCAP with
  | none => simp [init_device, hq, same_format, UsbCam.call]
  | some caps =>
    by_cases g1 : caps &&& V4L2_CAP_VIDEO_CAPTURE = 0
    · simp [init_device, hq, g1, same_format, UsbCam.call]
    · by_cases g2 : s.io_ = IO_METHOD_READ ∧ caps &&& V4L2_CAP_READWRITE = 0
      · simp [init_device, hq, g1, g2.1, g2.2, same_format, UsbCam.call]
      · by_cases g3 : (s.io_ = IO_METHOD_MMAP ∨ s.io_ = IO_METHOD_USERPTR) ∧
            caps &&& V4L2_CAP_STREAMING = 0
        · rcases g3 with ⟨hio | hio, hst⟩ <;>
            simp [init_device, hq, g1, hio, hst, same_format, UsbCam.call]
        · have hpass : capability_checks_pass s.io_ caps :=
            ⟨g1, fun hr hc => g2 ⟨hr, hc⟩, fun hr hc => g3 ⟨hr, hc⟩⟩
          obtain ⟨h1, h2, h3⟩ := hpass
          cases hfmt : k.VIDIOC_S_FMT ⟨w, h, s.pixelformat_, 0, 0⟩ with
          | none =>
            cases hio : s.io_ <;> cases hcrop : k.VIDIOC_CROPCAP <;>
              simp_all [init_device, UsbCam.call, same_format]
          | some fmt =>
            cases hg : k.VIDIOC_G_PARM with
            | none =>
              cases hio : s.io_ <;> cases hcrop : k.VIDIOC_CROPCAP <;>
                simp_all [init_device, UsbCam.call, same_format]
            | some g =>
              rw [init_device_reaches_allocation k s w h fr caps g fmt hq ⟨h1, h2, h3⟩ hfmt hg]
              cases hio : s.io_
              · simp only [allocate, before_allocation, hio]
                exact (allocate_format k _ _).1
              · simp only [allocate, before_allocation, hio]
                exact (allocate_format k _ 0).2.1
              · simp only [allocate, before_allocation, hio]
                exact (allocate_format k _ _).2.2
              · simp [allocate, before_allocation, hio, same_format]

/-- The function `open_device` keeps the pixel format and the monochrome flag. -/
theorem open_device_format (k : Kernel) (s : UsbCam) :
    same_format s (open_device k s).2 := by
  unfold open_device
  simp only
  repeat' split
  all_goals simp [same_format, UsbCam.call]

/-- The function `start_capturing` keeps the pixel format and the monochrome flag. -/
theorem start_capturing_format (k : Kernel) (s : UsbCam) :
    same_format s (start_capturing k s).2 := by
  have hq := enqueue_all_format k s.n_buffers_ s.n_buffers_ s
  unfold same_format at hq
  by_cases hcap : s.is_capturing_ = true
  · simp [start_capturing, hcap, same_format]
  · have hcap0 : s.is_capturing_ = false := by simpa using hcap
    cases hio : s.io_
    · simp [start_capturing, hcap0, hio, same_format]
    · rw [start_capturing_streaming k s hcap0 (Or.inl hio)]
      split_ifs <;> simp [same_format, UsbCam.call, hq.1, hq.2]
    · rw [start_capturing_streaming k s hcap0 (Or.inr hio)]
      split_ifs <;> simp [same_format, UsbCam.call, hq.1, hq.2]
    · simp [start_capturing, hcap0, hio, same_format]

/-- The tail of `start` keeps the pixel format and the monochrome flag. -/
theorem start_device_format (k : Kernel) (s : UsbCam) (w h : Nat) (fr : Int) :
    same_format s (start_device k s w h fr).2 := by
  have ho := open_device_format k s
  have hd := init_device_format k (open_device k s).2 w h fr
  have hc := start_capturing_format k (init_device k (open_device k s).2 w h fr).2
  unfold same_format at ho hd hc ⊢
  unfold start_device
  simp only
  split_ifs
  · exact ho
  · exact ⟨hd.1.trans ho.1, hd.2.trans ho.2⟩
  · exact ⟨hc.1.trans (hd.1.trans ho.1), hc.2.trans (hd.2.trans ho.2)⟩
  · exact ⟨hc.1.trans (hd.1.trans ho.1), hc.2.trans (hd.2.trans ho.2)⟩

/-- The function `init_decoder` keeps the pixel format and the monochrome flag. -/
theorem init_decoder_format (k : Kernel) (s : UsbCam) :
    same_format s (init_decoder k s).2 := by
  unfold init_decoder same_format
  simp only
  split_ifs <;> simp

/-- What `start` leaves in `pixelformat_` and `monochrome_`, whatever the
outcome of the call, for each of the eight known pixel formats. -/
theorem start_format (k : Kernel) (s : UsbCam) (dev : String) (io : io_method)
    (pf : pixel_format) (cf : color_format) (w h : Nat) (fr : Int)
    (hpf : pf ≠ PIXEL_FORMAT_UNKNOWN) :
    (start k s dev io pf cf w h fr).2.pixelformat_ =
      (match pf with
        | PIXEL_FORMAT_YUYV => V4L2_PIX_FMT_YUYV
        | PIXEL_FORMAT_UYVY => V4L2_PIX_FMT_UYVY
        | PIXEL_FORMAT_MJPEG => V4L2_PIX_FMT_MJPEG
        | PIXEL_FORMAT_H264 => V4L2_PIX_FMT_H264
        | PIXEL_FORMAT_YUVMONO10 => V4L2_PIX_FMT_YUYV
        | PIXEL_FORMAT_RGB24 => V4L2_PIX_FMT_RGB24
        | PIXEL_FORMAT_GREY => V4L2_PIX_FMT_GREY
        | PIXEL_FORMAT_YU12 => V4L2_PIX_FMT_YUV420
        | PIXEL_FORMAT_UNKNOWN => s.pixelformat_) ∧
    (start k s dev io pf cf w h fr).2.monochrome_ =
      (match pf with
        | PIXEL_FORMAT_YUVMONO10 => true
        | PIXEL_FORMAT_GREY => true
        | _ => false) := by
  have key : ∀ s0 : UsbCam, (start_device k s0 w h fr).2.pixelformat_ = s0.pixelformat_ ∧
      (start_device k s0 w h fr).2.monochrome_ = s0.monochrome_ := fun s0 =>
    start_device_format k s0 w h fr
  have dec : ∀ s0 : UsbCam, (init_decoder k s0).2.pixelformat_ = s0.pixelformat_ ∧
      (init_decoder k s0).2.monochrome_ = s0.monochrome_ := fun s0 =>
    init_decoder_format k s0
  cases pf
  case PIXEL_FORMAT_UNKNOWN => exact absurd rfl hpf
  case PIXEL_FORMAT_MJPEG =>
    simp only [start]
    exact ⟨(key _).1.trans (dec _).1, (key _).2.trans (dec _).2⟩
  case PIXEL_FORMAT_H264 =>
    simp only [start]
    exact ⟨(key _).1.trans (dec _).1, (key _).2.trans (dec _).2⟩
  all_goals
    simp only [start]
    exact key _

/-- C22.  Format routing of `start` and `process_image`.  Whatever the kernel
answers and whatever the outcome of `start`: after `start` with
`PIXEL_FORMAT_YUVMONO10` the kernel pixel format `pixelformat_` is
`V4L2_PIX_FMT_YUYV`, `monochrome_` is true, and `process_image` on that session
is, for every source, length and destination, the call of `MONO102MONO8`; after
`start` with `PIXEL_FORMAT_YUYV`, `monochrome_` is false and `process_image` is
the call of `YUYV2RGB`; `monochrome_` is true after `start` exactly when the
format is `PIXEL_FORMAT_YUVMONO10` or `PIXEL_FORMAT_GREY`; and for a format that
is none of the eight known ones `start` returns false with no call recorded
(no `stat`, no `open`) and only `camera_dev_`, `io_` and `monochrome_` written. -/
theorem start_format_routing (cv : Conversions) (k : Kernel) (s : UsbCam) (dev : String)
    (io : io_method) (cf : color_format) (w h : Nat) (fr : Int) :
    ((start k s dev io PIXEL_FORMAT_YUVMONO10 cf w h fr).2.pixelformat_ = V4L2_PIX_FMT_YUYV ∧
      (start k s dev io PIXEL_FORMAT_YUVMONO10 cf w h fr).2.monochrome_ = true ∧
      ∀ (src : List Nat) (len : Int) (dest : camera_image_t),
        process_image cv (start k s dev io PIXEL_FORMAT_YUVMONO10 cf w h fr).2 src len dest =
          ((cv.MONO102MONO8 src dest.image (u32 (dest.width * dest.height))).1,
            { dest with
              image := (cv.MONO102MONO8 src dest.image (u32 (dest.width * dest.height))).2 })) ∧
    ((start k s dev io PIXEL_FORMAT_YUYV cf w h fr).2.pixelformat_ = V4L2_PIX_FMT_YUYV ∧
      (start k s dev io PIXEL_FORMAT_YUYV cf w h fr).2.monochrome_ = false ∧
      ∀ (src : List Nat) (len : Int) (dest : camera_image_t),
        process_image cv (start k s dev io PIXEL_FORMAT_YUYV cf w h fr).2 src len dest =
          ((cv.YUYV2RGB src dest.image (u32 (dest.width * dest.height))).1,
            { dest with
              image := (cv.YUYV2RGB src dest.image (u32 (dest.width * dest.height))).2 })) ∧
    (∀ pf : pixel_format, (start k s dev io pf cf w h fr).2.monochrome_ = true ↔
      (pf = PIXEL_FORMAT_YUVMONO10 ∨ pf = PIXEL_FORMAT_GREY)) ∧
    start k s dev io PIXEL_FORMAT_UNKNOWN cf w h fr =
      (false, { s with camera_dev_ := dev, io_ := io, monochrome_ := false }) ∧
    (start k s dev io PIXEL_FORMAT_UNKNOWN cf w h fr).2.trace = s.trace := by
  have hm := start_format k s dev io PIXEL_FORMAT_YUVMONO10 cf w h fr (by decide)
  have hy := start_format k s dev io PIXEL_FORMAT_YUYV cf w h fr (by decide)
  simp only at hm hy
  refine ⟨⟨hm.1, hm.2, ?_⟩, ⟨hy.1, hy.2, ?_⟩, ?_, rfl, rfl⟩
  · intro src len dest
    simp [process_image, hm.1, hm.2]
  · intro src len dest
    simp [process_image, hy.1, hy.2]
  · intro pf
    by_cases hu : pf = PIXEL_FORMAT_UNKNOWN
    · subst hu
      simp [start]
    · rw [(start_format k s dev io pf cf w h fr hu).2]
      cases pf <;> simp

/-! ## The image message of the node -/

/-- C23.  For every image message on entry, when the camera reports a non-zero
image size and, in case the message has to be resized and the reported step is
zero, a non-zero height, `take_and_send_image` returns `true` and the message
it publishes has a `data` of exactly the reported image size.  When the length
of `data` was already that size on entry, `width`, `height`, `encoding`, `step`
and the length of `data` are as they were.  When it differed, `step` is the
reported step as a `uint32`, or, if that is zero, the reported image size
divided by the height; for a reported size, step and height below `2^32` that
is the reported step, or the exact quotient of size by height if the step is
zero. -/
theorem take_and_send_image_resize (cam : NodeCamera) (m : Image)
    (hsize : cam.get_image_size ≠ 0)
    (hheight : m.data.length ≠ cam.get_image_size → u32 cam.get_image_step = 0 →
      u32 cam.get_image_height ≠ 0) :
    ∃ r : Image, take_and_send_image cam m = some (true, r) ∧
      r.data.length = cam.get_image_size ∧
      (m.data.length = cam.get_image_size →
        r.width = m.width ∧ r.height = m.height ∧ r.encoding = m.encoding ∧
        r.step = m.step ∧ r.data.length = m.data.length) ∧
      (m.data.length ≠ cam.get_image_size →
        r.step = (if u32 cam.get_image_step = 0
          then u32 (cam.get_image_size / u32 cam.get_image_height)
          else u32 cam.get_image_step)) ∧
      (m.data.length ≠ cam.get_image_size → cam.get_image_size < 2 ^ 32 →
        cam.get_image_step < 2 ^ 32 → cam.get_image_height < 2 ^ 32 →
        r.step = (if cam.get_image_step = 0
          then cam.get_image_size / cam.get_image_height
          else cam.get_image_step)) := by
  have hres : ∀ d : List Nat, (resize d cam.get_image_size).length = cam.get_image_size := by
    intro d
    simp only [resize, List.length_append, List.length_take, List.length_replicate]
    omega
  have hne : ∀ d : List Nat, resize d cam.get_image_size ≠ [] := by
    intro d hd
    have := hres d
    rw [hd] at this
    exact hsize this.symm
  by_cases heq : m.data.length = cam.get_image_size
  · have hd : m.data ≠ [] := by
      intro hd
      rw [hd] at heq
      exact hsize heq.symm
    refine ⟨_, by simp [take_and_send_image, heq, hd]; rfl, ?_, ?_, ?_, ?_⟩
    · simp
    · intro _
      simp [heq]
    · intro hn
      exact absurd heq hn
    · intro hn
      exact absurd heq hn
  · by_cases hstep : u32 cam.get_image_step = 0
    · have hh := hheight heq hstep
      refine ⟨_, by simp [take_and_send_image, heq, hstep, hh, hne]; rfl, ?_, ?_, ?_, ?_⟩
      · simp [hres]
      · intro hn
        exact absurd hn heq
      · intro _
        simp [hstep]
      · intro _ hs1 hs2 hs3
        have e2 : u32 cam.get_image_step = cam.get_image_step := Nat.mod_eq_of_lt hs2
        have e3 : u32 cam.get_image_height = cam.get_image_height := Nat.mod_eq_of_lt hs3
        have e1 : u32 (cam.get_image_size / cam.get_image_height)
            = cam.get_image_size / cam.get_image_height :=
          Nat.mod_eq_of_lt (lt_of_le_of_lt (Nat.div_le_self _ _) hs1)
        rw [e2] at hstep
        simp [hstep, e3, e1]
    · refine ⟨_, by simp [take_and_send_image, heq, hstep, hne]; rfl, ?_, ?_, ?_, ?_⟩
      · simp [hres]
      · intro hn
        exact absurd hn heq
      · intro _
        simp [hstep]
      · intro _ _ hs2 _
        have e2 : u32 cam.get_image_step = cam.get_image_step := Nat.mod_eq_of_lt hs2
        rw [e2] at hstep
        simp [hstep, e2]

/-- C23 (witness).  The empty message and a camera that reports six bytes, a
height of three and no step: the published message has six bytes and a step of
two. -/
theorem take_and_send_image_resize_witness :
    six_byte_camera.get_image_size ≠ 0 ∧
    ∃ r : Image, take_and_send_image six_byte_camera empty_message = some (true, r) ∧
      r.data.length = 6 ∧ r.step = 2 :=
  ⟨by decide,
   (take_and_send_image_resize six_byte_camera empty_message (by decide) (by decide)).imp
     (fun _ hr => ⟨hr.1, hr.2.1, hr.2.2.2.1 (by decide)⟩)⟩

end usb_cam
